import Mathlib

/-!
# Verification of the ARKAINBRAIN OODA convergence subsystem

Shallow embedding of the convergence subsystem of the Arkainbrain pipeline:

* the convergence loop controller (`run_design_and_math` in `src/flows/pipeline.py`,
  lines 1293-1422),
* the convergence validator (`ConvergenceValidatorTool._run` in
  `src/tools/convergence_tools.py`),
* the GDD patch tool (`GDDPatchTool._run`),
* the paytable sanity checker (`PaytableSanityCheckerTool._run`),
* the jurisdiction compliance checker (`JurisdictionComplianceCheckerTool._run`
  in `src/tools/jurisdiction_profiles.py`).

External LLM calls are modelled as arbitrary environment functions; files on disk
are modelled as explicit optional values; human-readable `detail`/`fix` message
strings are abstracted to the data they carry (type, severity, attribution,
market name), since the claims quantify over those fields only.
-/

namespace Arkainbrain

/-! ## Computable helpers

Mathlib marks `Rat.add`/`Rat.sub`/`Rat.mul` irreducible and implements `String`
operations over UTF-8 byte positions, neither of which the kernel can
evaluate.  The embedding therefore uses the following definitionally
transparent equivalents (with bridging lemmas to the standard operations), so
that every concrete run of the model can be checked by `decide`. -/

/-- Rational addition, kernel-reducible; equal to `+` by `qAdd_eq`. -/
def qAdd (a b : ℚ) : ℚ := mkRat (a.num * b.den + b.num * a.den) (a.den * b.den)

/-- Rational subtraction, kernel-reducible; equal to `-` by `qSub_eq`. -/
def qSub (a b : ℚ) : ℚ := mkRat (a.num * b.den - b.num * a.den) (a.den * b.den)

/-- Rational multiplication, kernel-reducible; equal to `*` by `qMul_eq`. -/
def qMul (a b : ℚ) : ℚ := mkRat (a.num * b.num) (a.den * b.den)

lemma qAdd_eq (a b : ℚ) : qAdd a b = a + b := (Rat.add_def' a b).symm

lemma qSub_eq (a b : ℚ) : qSub a b = a - b := (Rat.sub_def' a b).symm

lemma qMul_eq (a b : ℚ) : qMul a b = a * b := by
  rw [qMul, Rat.mul_def, Rat.normalize_eq_mkRat]

/-- Python `str.lower()` (ASCII-adequate, matching the jurisdiction names and
header strings used by the source). -/
def pyLower (s : String) : String := ⟨s.data.map Char.toLower⟩

/-- Python `str.strip()` (whitespace trimming on both ends). -/
def pyStrip (s : String) : String :=
  ⟨((s.data.dropWhile Char.isWhitespace).reverse.dropWhile Char.isWhitespace).reverse⟩

/-! ## Convergence loop controller

Model of the OODA loop in `run_design_and_math` (`src/flows/pipeline.py` 1293-1422).
The producer's convergence assessment of iteration `n` (the JSON written to
`convergence_result_{n}.json`, parsed with a `converged=False` default) is an
external call, modelled as an arbitrary function `env : Nat → ConvResult`.
-/

/-- One blocker entry in a parsed convergence result
(`{"agent": ..., "issue": ..., "instruction": ...}`). -/
structure Blocker where
  agent : String
  issue : String
  instruction : String
deriving Repr, DecidableEq

/-- A parsed `convergence_result_{n}.json` (after the missing-file /
unparseable-file default is applied, pipeline.py 1386-1400). -/
structure ConvResult where
  converged : Bool
  blockers : List Blocker
  warnings : List String
  summary : String
deriving Repr, DecidableEq

/-- An entry of `self.state.convergence_history` (pipeline.py 1402-1408). -/
structure HistEntry where
  loop : Nat
  converged : Bool
  blockers : Nat
  warnings : Nat
  summary : String
deriving Repr, DecidableEq

/-- The history record appended for loop `n` with parsed result `r`
(pipeline.py 1402-1408). -/
def histOf (n : Nat) (r : ConvResult) : HistEntry :=
  ⟨n, r.converged, r.blockers.length, r.warnings.length, r.summary⟩

/-- Outcome of the convergence loop: the history list, the final value of
`loop_num` (`convergence_loops_run`, 0 when the loop body never ran), and the
final `converged` flag (pipeline.py 1293, 1415-1422, 1486, 1511-1515). -/
structure LoopOutcome where
  history : List HistEntry
  loopsRun : Nat
  converged : Bool
deriving Repr, DecidableEq

/-- The loop body of `for loop_num in range(1, MAX_CONVERGENCE_LOOPS + 1)`,
walking the list of loop indices.  For each index: obtain the parsed
convergence result, append the history entry, exit with `converged := true`
if the result says converged (pipeline.py 1415-1418), otherwise exit with
`converged := false` once the budget is reached (pipeline.py 1420-1422);
otherwise the ACT revision phase runs (an external call, already absorbed
into `env`) and the loop continues. -/
def runLoopList (env : Nat → ConvResult) (maxLoops : Nat) : List Nat → LoopOutcome
  | [] => ⟨[], 0, false⟩
  | n :: rest =>
    let r := env n
    let entry := histOf n r
    if r.converged then ⟨[entry], n, true⟩
    else if maxLoops ≤ n then ⟨[entry], n, false⟩
    else
      let o := runLoopList env maxLoops rest
      ⟨entry :: o.history, o.loopsRun, o.converged⟩

/-- The convergence loop controller: iterates loop indices `1..maxLoops`
(pipeline.py 1294). -/
def runConvergenceLoop (env : Nat → ConvResult) (maxLoops : Nat) : LoopOutcome :=
  runLoopList env maxLoops (List.range' 1 maxLoops)

/-- The producer's convergence-task description appends the instruction
`Last loop — set converged=true with warnings if issues are non-blocking.`
exactly when `loop_num == MAX_CONVERGENCE_LOOPS` (pipeline.py 1373). -/
def lastLoopForceInstruction (loopNum maxLoops : Nat) : Bool :=
  loopNum == maxLoops

/-! ### Loop lemmas -/

lemma runLoopList_spec (env : Nat → ConvResult) (maxLoops : Nat) :
    ∀ (k a : Nat), 1 ≤ k → a + k = maxLoops + 1 →
      (runLoopList env maxLoops (List.range' a k)).history.length ≤ k ∧
      1 ≤ (runLoopList env maxLoops (List.range' a k)).history.length ∧
      (runLoopList env maxLoops (List.range' a k)).loopsRun =
        a + (runLoopList env maxLoops (List.range' a k)).history.length - 1 ∧
      (runLoopList env maxLoops (List.range' a k)).loopsRun ≤ maxLoops ∧
      ((runLoopList env maxLoops (List.range' a k)).converged = true ∨
        (runLoopList env maxLoops (List.range' a k)).loopsRun = maxLoops) := by
  intro k
  induction k with
  | zero => intro a h; omega
  | succ k ih =>
    intro a _ ha
    rcases Nat.eq_zero_or_pos k with hk0 | hkpos
    · subst hk0
      have haeq : a = maxLoops := by omega
      subst haeq
      simp only [List.range'_one, runLoopList]
      split
      · simp
      · simp
    · have ha' : a < maxLoops := by omega
      have hrange : List.range' a (k + 1) = a :: List.range' (a + 1) k := by
        simp [List.range'_succ]
      rw [hrange]
      simp only [runLoopList]
      split
      · simp
        omega
      · have : ¬ maxLoops ≤ a := by omega
        simp only [this, if_false]
        have ih' := ih (a + 1) hkpos (by omega)
        refine ⟨by simpa using Nat.add_le_add_right ih'.1 1, by simp, ?_, ?_, ?_⟩
        · simp only [List.length_cons]
          omega
        · exact ih'.2.2.2.1
        · exact ih'.2.2.2.2

/-- If no iteration before the budget converges, the loop walks all the way to
the end: the history records every iteration's parsed result verbatim, and the
final `converged` flag is exactly the final iteration's flag. -/
lemma runLoopList_exhaust (env : Nat → ConvResult) (maxLoops : Nat) :
    ∀ (k a : Nat), 1 ≤ k → a + k = maxLoops + 1 →
      (∀ i, a ≤ i → i < maxLoops → (env i).converged = false) →
      runLoopList env maxLoops (List.range' a k) =
        ⟨(List.range' a k).map (fun i => histOf i (env i)), maxLoops,
          (env maxLoops).converged⟩ := by
  intro k
  induction k with
  | zero => intro a h; omega
  | succ k ih =>
    intro a _ ha henv
    rcases Nat.eq_zero_or_pos k with hk0 | hkpos
    · subst hk0
      have haeq : a = maxLoops := by omega
      subst haeq
      simp only [List.range'_one, runLoopList, List.map_cons, List.map_nil]
      split
      · next hc => simp [hc]
      · next hc =>
        simp only [Bool.not_eq_true] at hc
        simp [hc]
    · have ha' : a < maxLoops := by omega
      have hrange : List.range' a (k + 1) = a :: List.range' (a + 1) k := by
        simp [List.range'_succ]
      rw [hrange]
      simp only [runLoopList]
      have hca : (env a).converged = false := henv a le_rfl ha'
      simp only [hca, if_false, Bool.false_eq_true]
      have : ¬ maxLoops ≤ a := by omega
      simp only [this, if_false]
      rw [ih (a + 1) hkpos (by omega) (fun i hi h2 => henv i (by omega) h2)]
      simp

end Arkainbrain

namespace Arkainbrain

/-- C1: For every configured maximum-iteration budget `N ≥ 1` and every possible
behaviour of the external revision/validation calls, the convergence loop
executes at most `N` iterations (and at least one), and terminates either with
a converged verdict or by reaching the iteration budget. -/
theorem C1_loop_bounded_termination (N : Nat) (env : Nat → ConvResult)
    (hN : 1 ≤ N) :
    (runConvergenceLoop env N).history.length ≤ N ∧
    1 ≤ (runConvergenceLoop env N).history.length ∧
    (runConvergenceLoop env N).loopsRun ≤ N ∧
    ((runConvergenceLoop env N).converged = true ∨
      (runConvergenceLoop env N).loopsRun = N) := by
  have h := runLoopList_spec env N N 1 hN (by omega)
  exact ⟨h.1, h.2.1, h.2.2.2.1, h.2.2.2.2⟩

/-- Witness for C1 at `N = 3` with an environment that never converges. -/
theorem C1_loop_bounded_termination_witness :
    (1 ≤ 3) ∧
    ((runConvergenceLoop (fun _ => ⟨false, [], [], "none"⟩) 3).history.length ≤ 3 ∧
     1 ≤ (runConvergenceLoop (fun _ => ⟨false, [], [], "none"⟩) 3).history.length ∧
     (runConvergenceLoop (fun _ => ⟨false, [], [], "none"⟩) 3).loopsRun ≤ 3 ∧
     ((runConvergenceLoop (fun _ => ⟨false, [], [], "none"⟩) 3).converged = true ∨
       (runConvergenceLoop (fun _ => ⟨false, [], [], "none"⟩) 3).loopsRun = 3)) :=
  ⟨by decide, C1_loop_bounded_termination 3 (fun _ => ⟨false, [], [], "none"⟩) (by decide)⟩

/-- The environment of the C3 counterexample: iterations 1 and 2 report a
blocker; iteration 3 reports no blockers, one remaining warning, and
`converged = false` (which the parsed file may legitimately contain — the
"force" on the last loop is only an instruction inside the producer's prompt,
pipeline.py 1373, not enforced by the loop). -/
def c3Env : Nat → ConvResult := fun n =>
  if n < 3 then ⟨false, [⟨"mathematician", "rtp off target", "fix reels"⟩], [], "blocked"⟩
  else ⟨false, [], ["residual cosmetic warning"], "issues non-blocking"⟩

/-- C3 counterexample: with max-iterations 3, iterations 1 and 2 blocked, and a
final iteration whose parsed result has only non-blocking issues (no blockers,
one warning) but `converged = false`, the loop exits after 3 iterations with
`converged = false` recorded in the final convergence report — the
budget-exhaustion path does not force `converged = true`. -/
theorem C3_counterexample :
    (c3Env 3).blockers = [] ∧ (c3Env 3).warnings ≠ [] ∧
    (runConvergenceLoop c3Env 3).history.length = 3 ∧
    (runConvergenceLoop c3Env 3).converged = false ∧
    ((runConvergenceLoop c3Env 3).history.getLast?.map HistEntry.converged
      = some false) := by
  decide

/-- C3 amended: when no iteration before the budget converges, the loop runs
exactly `N` iterations, records each iteration's result verbatim in the
history (in particular the final entry carries the final iteration's
`converged` flag and warning count unchanged), the final `converged` flag is
exactly the final iteration's flag, and the final iteration's producer prompt
carries the force-converged instruction. -/
theorem C3_last_loop_records_final_result (N : Nat) (env : Nat → ConvResult)
    (hN : 1 ≤ N) (h : ∀ i, 1 ≤ i → i < N → (env i).converged = false) :
    (runConvergenceLoop env N).history =
      (List.range' 1 N).map (fun i => histOf i (env i)) ∧
    (runConvergenceLoop env N).loopsRun = N ∧
    (runConvergenceLoop env N).converged = (env N).converged ∧
    lastLoopForceInstruction N N = true := by
  have h' := runLoopList_exhaust env N N 1 hN (by omega) h
  unfold runConvergenceLoop
  rw [h']
  exact ⟨rfl, rfl, rfl, by simp [lastLoopForceInstruction]⟩

/-! ## Jurisdiction profile store and compliance checker

Model of `JURISDICTION_PROFILES` and `JurisdictionComplianceCheckerTool._run`
(`src/tools/jurisdiction_profiles.py`).  Each profile is restricted to the
fields the checker actually reads: `rtp.min` / `rtp.max`, `max_win.cap_x`,
`features.banned` / `features.restricted`, the `responsible_gambling` entries
(each a dict whose `required` flag is read), and
`technical_requirements.min_game_cycle_time_ms` (with the `.get` default `0`
when the key or the whole `technical_requirements` dict is absent).
`authority`, notes, content restrictions and submission documents are opaque
text not consulted by any numeric check and are omitted. -/

structure Profile where
  rtpMin : ℚ
  rtpMax : ℚ
  capX : Option ℚ
  banned : List String
  restricted : List String
  /-- `responsible_gambling` entries in dict order: (feature name, `required` flag). -/
  rg : List (String × Bool)
  minCycleMs : Nat
deriving Repr, DecidableEq

/-- The static profile table (`JURISDICTION_PROFILES`, jurisdiction_profiles.py
31-380), in dict insertion order.  Note every `max_win.cap_x` in the source is
`None`. -/
def JURISDICTION_PROFILES : List (String × Profile) :=
  [("UK",
    { rtpMin := 70, rtpMax := mkRat 999 10, capX := none,
      banned := ["bonus_buy"], restricted := ["autoplay_speed_over_2.5s"],
      rg := [("reality_check", true), ("session_timer", true), ("net_position", true),
             ("loss_limits", true), ("deposit_limits", true), ("self_exclusion", true),
             ("panic_button", true), ("rg_messaging", true)],
      minCycleMs := 2500 }),
   ("Malta",
    { rtpMin := 85, rtpMax := mkRat 999 10, capX := none,
      banned := [], restricted := [],
      rg := [("reality_check", true), ("session_timer", true), ("net_position", false),
             ("loss_limits", true), ("deposit_limits", true), ("self_exclusion", true),
             ("panic_button", false), ("rg_messaging", true)],
      minCycleMs := 1000 }),
   ("Ontario",
    { rtpMin := 85, rtpMax := mkRat 999 10, capX := none,
      banned := [], restricted := ["bonus_buy"],
      rg := [("reality_check", true), ("session_timer", true), ("net_position", true),
             ("loss_limits", true), ("deposit_limits", true), ("self_exclusion", true),
             ("panic_button", true), ("rg_messaging", true), ("play_break_reminders", true)],
      minCycleMs := 2000 }),
   ("Sweden",
    { rtpMin := 80, rtpMax := mkRat 999 10, capX := none,
      banned := ["bonus_buy", "autoplay"], restricted := ["turbo_spin"],
      rg := [("reality_check", true), ("session_timer", true), ("net_position", true),
             ("loss_limits", true), ("deposit_limits", true), ("self_exclusion", true),
             ("panic_button", true), ("rg_messaging", true)],
      minCycleMs := 3000 }),
   ("New Jersey",
    { rtpMin := 83, rtpMax := mkRat 999 10, capX := none,
      banned := [], restricted := [],
      rg := [("reality_check", false), ("session_timer", true), ("loss_limits", true),
             ("deposit_limits", true), ("self_exclusion", true), ("rg_messaging", true)],
      minCycleMs := 1500 }),
   ("Spain",
    { rtpMin := 85, rtpMax := mkRat 999 10, capX := none,
      banned := ["bonus_buy"], restricted := ["autoplay"],
      rg := [("reality_check", true), ("session_timer", true), ("loss_limits", true),
             ("deposit_limits", true), ("self_exclusion", true), ("rg_messaging", true)],
      -- Spain's profile has no `technical_requirements` dict: `.get` default 0
      minCycleMs := 0 }),
   ("Curacao",
    { rtpMin := 75, rtpMax := mkRat 999 10, capX := none,
      banned := [], restricted := [],
      rg := [("reality_check", false), ("session_timer", false), ("loss_limits", false),
             ("deposit_limits", true), ("self_exclusion", true), ("rg_messaging", true)],
      minCycleMs := 500 }),
   ("Georgia",
    { rtpMin := 75, rtpMax := mkRat 999 10, capX := none,
      banned := [], restricted := [],
      rg := [("rg_messaging", true), ("self_exclusion", true)],
      -- `technical_requirements` has no `min_game_cycle_time_ms` key: default 0
      minCycleMs := 0 }),
   ("Texas",
    { rtpMin := 75, rtpMax := mkRat 999 10, capX := none,
      banned := [], restricted := [],
      rg := [("rg_messaging", true), ("self_exclusion", true)],
      minCycleMs := 0 })]

/-- Exact-key lookup (`JURISDICTION_PROFILES.get(market_name)`). -/
def lookupExact (name : String) : Option Profile :=
  (JURISDICTION_PROFILES.find? (fun kp => kp.1 == name)).map Prod.snd

/-- Market resolution (jurisdiction_profiles.py 430-437): exact match first,
then the first profile whose lowercased key equals the lowercased, trimmed
market name; the resolved canonical key is kept as `market_name`. -/
def resolveProfile (name : String) : Option (String × Profile) :=
  match lookupExact name with
  | some p => some (name, p)
  | none => JURISDICTION_PROFILES.find? (fun kp => pyLower kp.1 == pyStrip (pyLower name))

/-- The profiles that resolve, in market-list order (unknown markets skipped). -/
def resolvedProfiles (markets : List String) : List (String × Profile) :=
  markets.filterMap resolveProfile

/-- The checker's per-market accumulator state (jurisdiction_profiles.py
423-427 and the loop body).  `all_banned` and `all_required_rg` are Python
sets; they are modelled as accumulation lists (the claims only concern the
numeric fields). -/
structure ComplianceAcc where
  markets_checked : List String
  unknown_markets : List String
  tightest_min_rtp : ℚ
  all_banned : List String
  all_required_rg : List String
  slowest_cycle_ms : Nat
deriving Repr, DecidableEq

/-- One iteration of the checker's market loop (jurisdiction_profiles.py
429-533), keeping the fields that feed the `intersection` output. -/
def complianceStep (proposed_features : List String) (acc : ComplianceAcc)
    (market : String) : ComplianceAcc :=
  match resolveProfile market with
  | none => { acc with unknown_markets := acc.unknown_markets ++ [market] }
  | some (k, p) =>
    let banned_hits := proposed_features.filter (fun f => p.banned.contains f)
    { markets_checked := acc.markets_checked ++ [k]
      unknown_markets := acc.unknown_markets
      tightest_min_rtp := max acc.tightest_min_rtp p.rtpMin
      all_banned := if banned_hits.isEmpty then acc.all_banned
                    else acc.all_banned ++ banned_hits
      all_required_rg := acc.all_required_rg ++ (p.rg.filter Prod.snd).map Prod.fst
      slowest_cycle_ms := max acc.slowest_cycle_ms p.minCycleMs }

/-- The `results["intersection"]` object built at jurisdiction_profiles.py
536-542.  Its fields are exactly the five keys of that dict literal: it
contains no max-win-cap component of any kind. -/
structure IntersectionResult where
  tightest_min_rtp : ℚ
  rtp_compliant : Bool
  features_banned_in_any_market : List String
  all_required_rg_features : List String
  slowest_min_cycle_ms : Nat
deriving Repr, DecidableEq

/-- The JSON keys of the `intersection` dict literal
(jurisdiction_profiles.py 536-542). -/
def intersectionJsonKeys : List String :=
  ["tightest_min_rtp", "rtp_compliant", "features_banned_in_any_market",
   "all_required_rg_features", "slowest_min_cycle_ms"]

/-- The intersection produced by `JurisdictionComplianceCheckerTool._run`:
fold the market loop from the zero-initialised accumulators
(`tightest_min_rtp = 0.0`, `slowest_cycle_ms = 0`, empty sets), then read off
the five intersection fields. -/
def complianceIntersection (markets : List String) (proposed_rtp : ℚ)
    (proposed_features : List String) : IntersectionResult :=
  let acc := markets.foldl (complianceStep proposed_features) ⟨[], [], 0, [], [], 0⟩
  ⟨acc.tightest_min_rtp, decide (acc.tightest_min_rtp ≤ proposed_rtp),
   acc.all_banned, acc.all_required_rg, acc.slowest_cycle_ms⟩

/-- Modelled from the spec (for comparison with the source): the spec's
described intersection max-win cap, `min(cap for profile in set if cap is not
null, default=+inf)`, with `none` standing for +infinity.  No corresponding
computation exists in `JurisdictionComplianceCheckerTool._run`. -/
def specIntersectMaxWinCap (markets : List String) : Option ℚ :=
  ((resolvedProfiles markets).filterMap (fun mp => mp.2.capX)).min?

/-! ### Compliance lemmas -/

lemma complianceStep_tightest (feats : List String) :
    ∀ (markets : List String) (acc : ComplianceAcc),
      (markets.foldl (complianceStep feats) acc).tightest_min_rtp =
        (resolvedProfiles markets).foldl (fun a mp => max a mp.2.rtpMin)
          acc.tightest_min_rtp := by
  intro markets
  induction markets with
  | nil => intro acc; rfl
  | cons m t ih =>
    intro acc
    simp only [List.foldl_cons, resolvedProfiles, List.filterMap_cons]
    cases h : resolveProfile m with
    | none =>
      simp only [complianceStep, h, ih]
      rfl
    | some kp =>
      simp only [complianceStep, h, ih]
      rfl

lemma foldl_max_init (l : List ℚ) : ∀ a, a ≤ l.foldl max a := by
  induction l with
  | nil => intro a; simp
  | cons y t ih => intro a; exact le_trans (le_max_left a y) (ih (max a y))

lemma foldl_max_le_elem {l : List ℚ} {x : ℚ} (hx : x ∈ l) :
    ∀ a, x ≤ l.foldl max a := by
  induction l with
  | nil => cases hx
  | cons y t ih =>
    intro a
    rcases List.mem_cons.mp hx with h | h
    · subst h
      exact le_trans (le_max_right a x) (foldl_max_init t (max a x))
    · exact ih h (max a y)

lemma foldl_max_attained (l : List ℚ) (a : ℚ) :
    l.foldl max a = a ∨ ∃ x ∈ l, l.foldl max a = x := by
  induction l generalizing a with
  | nil => exact Or.inl rfl
  | cons y t ih =>
    simp only [List.foldl_cons]
    rcases ih (max a y) with h | ⟨x, hx, hfx⟩
    · rcases max_cases a y with ⟨hm, _⟩ | ⟨hm, _⟩
      · exact Or.inl (h.trans hm)
      · exact Or.inr ⟨y, List.mem_cons_self _ _, h.trans hm⟩
    · exact Or.inr ⟨x, List.mem_cons_of_mem _ hx, hfx⟩

lemma resolveProfile_mem {name : String} {mp : String × Profile}
    (h : resolveProfile name = some mp) : mp ∈ JURISDICTION_PROFILES := by
  unfold resolveProfile at h
  cases hexact : lookupExact name with
  | some p =>
    rw [hexact] at h
    cases h
    unfold lookupExact at hexact
    cases hfind : (JURISDICTION_PROFILES.find? (fun kp => kp.1 == name)) with
    | none => rw [hfind] at hexact; cases hexact
    | some kp =>
      rw [hfind] at hexact
      cases hexact
      have hmem := List.mem_of_find?_eq_some hfind
      have hkey : kp.1 = name := by
        have := List.find?_some hfind
        simpa using this
      rw [← hkey]
      simpa using hmem
  | none =>
    rw [hexact] at h
    exact List.mem_of_find?_eq_some h

lemma profiles_rtpMin_ge :
    ∀ kp ∈ JURISDICTION_PROFILES, (70 : ℚ) ≤ kp.2.rtpMin := by
  decide

/-- C2 counterexample: the checker's intersection object consists of exactly
the five fields `tightest_min_rtp`, `rtp_compliant`,
`features_banned_in_any_market`, `all_required_rg_features`,
`slowest_min_cycle_ms` — there is no max-win-cap field for the claimed
equation to hold of — and indeed every stored profile carries a null
`max_win.cap_x`, so the spec-described `min(cap …, default=+inf)` is +infinity
(`none`) even on the concrete input `["UK", "Ontario"]`. -/
theorem C2_counterexample :
    intersectionJsonKeys =
      ["tightest_min_rtp", "rtp_compliant", "features_banned_in_any_market",
       "all_required_rg_features", "slowest_min_cycle_ms"] ∧
    "max_win_cap" ∉ intersectionJsonKeys ∧
    (∀ kp ∈ JURISDICTION_PROFILES, kp.2.capX = none) ∧
    specIntersectMaxWinCap ["UK", "Ontario"] = none ∧
    (complianceIntersection ["UK", "Ontario"] 96 []).tightest_min_rtp = 85 := by
  decide

/-- C2 amended: `tightest_min_rtp` is the maximum of the minimum-RTP bounds
over the resolved profiles (every resolved bound is dominated, and when at
least one market resolves the value is attained by some resolved profile);
the intersection carries no max-win-cap field (see `C2_counterexample`). -/
theorem C2_intersection_tightest_min_rtp (markets : List String)
    (proposed_rtp : ℚ) (feats : List String) :
    (∀ mp ∈ resolvedProfiles markets,
        mp.2.rtpMin ≤
          (complianceIntersection markets proposed_rtp feats).tightest_min_rtp) ∧
    (resolvedProfiles markets ≠ [] →
      ∃ mp ∈ resolvedProfiles markets,
        (complianceIntersection markets proposed_rtp feats).tightest_min_rtp =
          mp.2.rtpMin) := by
  have hfold :
      (complianceIntersection markets proposed_rtp feats).tightest_min_rtp =
        ((resolvedProfiles markets).map (fun mp => mp.2.rtpMin)).foldl max 0 := by
    show (markets.foldl (complianceStep feats) ⟨[], [], 0, [], [], 0⟩).tightest_min_rtp = _
    rw [complianceStep_tightest]
    simp [List.foldl_map]
  constructor
  · intro mp hmp
    rw [hfold]
    exact foldl_max_le_elem (List.mem_map_of_mem _ hmp) 0
  · intro hne
    rcases foldl_max_attained ((resolvedProfiles markets).map (fun mp => mp.2.rtpMin)) 0 with
      h0 | ⟨x, hx, hfx⟩
    · exfalso
      rcases List.exists_mem_of_ne_nil _ hne with ⟨mp, hmp⟩
      have h1 : mp.2.rtpMin ≤ ((resolvedProfiles markets).map (fun mp => mp.2.rtpMin)).foldl max 0 :=
        foldl_max_le_elem (List.mem_map_of_mem _ hmp) 0
      rw [h0] at h1
      have h70 : (70 : ℚ) ≤ mp.2.rtpMin := by
        have hmem : mp ∈ JURISDICTION_PROFILES := by
          rcases List.mem_filterMap.mp hmp with ⟨m, _, hres⟩
          exact resolveProfile_mem hres
        exact profiles_rtpMin_ge mp hmem
      linarith
    · rcases List.mem_map.mp hx with ⟨mp, hmp, rfl⟩
      exact ⟨mp, hmp, by rw [hfold, hfx]⟩

/-- Witness for the amended C2 on the concrete markets `["uk ", "Malta"]`
(exercising case-insensitive, whitespace-trimmed resolution): both resolve,
and the tightest minimum RTP is attained by a resolved profile. -/
theorem C2_intersection_tightest_min_rtp_witness :
    (resolvedProfiles ["uk ", "Malta"] ≠ []) ∧
    (∃ mp ∈ resolvedProfiles ["uk ", "Malta"],
      (complianceIntersection ["uk ", "Malta"] 96 []).tightest_min_rtp =
        mp.2.rtpMin) :=
  ⟨by decide, (C2_intersection_tightest_min_rtp ["uk ", "Malta"] 96 []).2 (by decide)⟩

/-! ## Convergence validator

Model of `ConvergenceValidatorTool._run` (`src/tools/convergence_tools.py`
106-312).  File reading and JSON/CSV parsing are abstracted: each artifact is
either absent (`none`), present but unparseable (`Except.error`), or parsed.
Human-readable `detail`/`fix` strings are abstracted to the data they carry. -/

/-- Byte-for-byte list prefix test. -/
def isPrefixCB : List Char → List Char → Bool
  | [], _ => true
  | _ :: _, [] => false
  | a :: as, b :: bs => a == b && isPrefixCB as bs

/-- `listContains sub s` is Python `sub in s` on character lists. -/
def listContains (sub : List Char) : List Char → Bool
  | [] => sub.isEmpty
  | c :: t => isPrefixCB sub (c :: t) || listContains sub t

/-- Python `needle in haystack` on strings. -/
def strContains (s sub : String) : Bool := listContains sub.data s.data

/-- Python `s.replace(" ", "_")`. -/
def pyReplaceSpace (s : String) : String :=
  ⟨s.data.map (fun c => if c = ' ' then '_' else c)⟩

/-- Python truthiness of a string (`if gdd_text:`). -/
def pyTruthyStr (s : String) : Bool := !s.data.isEmpty

/-- A conflict entry appended to `conflicts`: its `type`, `severity`,
optional `instruction_to`, and (for the jurisdiction max-win check) the market
named in the detail text. -/
structure Conflict where
  ctype : String
  severity : String
  instruction_to : Option String := none
  market : Option String := none
deriving Repr, DecidableEq

/-- A warning entry appended to `warnings`: its `type` and, when the detail
text names a file or feature term, that name. -/
structure VWarning where
  wtype : String
  term : Option String := none
deriving Repr, DecidableEq

/-- An entry of `checks_passed`, identified by the append site that produced
it together with the data interpolated into the message. -/
inductive PassedCheck where
  | gddExists
  | paytableLoaded (symbols : Nat)
  | simulationLoaded
  | rtpOnTarget
  | maxWinWithinCap (market : String)
  | rtpBreakdownConsistent
  | baseReelsLoaded (positions : Int)
deriving Repr, DecidableEq

/-- Parsed `simulation_results.json` as the validator reads it: the optional
`measured_rtp` and `max_win_achieved` numbers, the `rtp_breakdown` entries
(`none` marking a non-numeric value, filtered out of the sum), and the
truthiness of the parsed dict (`if gdd_text and sim:`, which may hold other
keys than the ones read). -/
structure Sim where
  nonempty : Bool
  measured_rtp : Option ℚ
  max_win_achieved : Option ℚ
  rtp_breakdown : List (String × Option ℚ)
deriving Repr, DecidableEq

deriving instance DecidableEq for Except

/-- The artifacts in the pipeline output directory as the validator sees them.
`reels = some (some n)` records `len(reel_lines) - 1` for a readable
`BaseReels.csv`; `some none` is a file whose read raised (the bare `except:
pass` at convergence_tools.py 273-274). -/
structure ValidatorEnv where
  gdd : Option String
  paytable : Option (Except String (List String))
  sim : Option (Except String Sim)
  reels : Option (Option Int)
deriving Repr, DecidableEq

/-- `ConvergenceValidatorTool.MAX_WIN_CAPS` (convergence_tools.py 98-104):
the validator's own fixed cap table, with `none` for an explicit `None`
("no cap") entry. -/
def MAX_WIN_CAPS : List (String × Option ℚ) :=
  [("uk", some 10000), ("ontario", some 10000), ("sweden", some 10000),
   ("malta", some 50000), ("curacao", none),
   ("new jersey", some 50000), ("michigan", some 50000),
   ("pennsylvania", some 50000), ("west virginia", some 50000),
   ("georgia", none), ("texas", none)]

/-- `MAX_WIN_CAPS.get(key)` distinguishing an absent key (`none`) from a
stored null cap (`some none`). -/
def capsLookup (key : String) : Option (Option ℚ) :=
  (MAX_WIN_CAPS.find? (fun kv => kv.1 == key)).map Prod.snd

/-- One iteration of the per-market cap loop (convergence_tools.py 200-210):
`cap = MAX_WIN_CAPS.get(market.lower().strip())`; a truthy cap that is
exceeded appends a BLOCKER conflict, a truthy cap that is not exceeded appends
a passed check, and an absent or null (or zero) cap appends nothing. -/
def marketCapCheck (mw : ℚ) (m : String) : List Conflict × List PassedCheck :=
  match capsLookup (pyStrip (pyLower m)) with
  | some (some c) =>
    if c = 0 then ([], [])
    else if c < mw then
      ([{ ctype := "JURISDICTION_MAX_WIN", severity := "BLOCKER",
          instruction_to := some "mathematician", market := some m }], [])
    else ([], [PassedCheck.maxWinWithinCap m])
  | _ => ([], [])

/-- The whole `for market in target_markets` loop, in order. -/
def jurisdictionChecks (mw : ℚ) : List String → List Conflict × List PassedCheck
  | [] => ([], [])
  | m :: rest =>
    let head := marketCapCheck mw m
    let tail := jurisdictionChecks mw rest
    (head.1 ++ tail.1, head.2 ++ tail.2)

/-- `sum(float(v) for v in rtp_breakdown.values() if isinstance(v, (int,
float)))` (convergence_tools.py 215). -/
def breakdownTotal (bd : List (String × Option ℚ)) : ℚ :=
  (bd.filterMap Prod.snd).foldl qAdd 0

/-- The GDD-feature / math-key table of section 7 (convergence_tools.py
230-238), in dict order. -/
def featureKeywords : List (String × String) :=
  [("free spins", "free_games"), ("cascading", "cascading_reels"),
   ("hold and spin", "hold_and_spin"), ("bonus buy", "bonus_buy"),
   ("expanding wild", "expanding_wilds"), ("multiplier", "multiplier"),
   ("jackpot", "jackpots")]

/-- Section 7's keyword loop (convergence_tools.py 239-249): for each GDD term
found in the lowercased GDD, warn FEATURE_UNCOSTED when no breakdown key
contains the math key or the underscored GDD term (and the breakdown is
non-empty). -/
def featureWarningsAux (gddLower : String) (bd : List (String × Option ℚ)) :
    List (String × String) → List VWarning
  | [] => []
  | (gt, mk) :: rest =>
    (if strContains gddLower gt then
       (if !(bd.any (fun kv => strContains (pyLower kv.1) mk ||
                               strContains (pyLower kv.1) (pyReplaceSpace gt))) &&
           !bd.isEmpty
        then [{ wtype := "FEATURE_UNCOSTED", term := some gt }] else [])
     else []) ++ featureWarningsAux gddLower bd rest

def featureWarnings (gddText : String) (bd : List (String × Option ℚ)) : List VWarning :=
  featureWarningsAux (pyLower gddText) bd featureKeywords

/-- The validator's structured report (`verdict`, `conflicts`, `warnings`,
`checks_passed`; the prose `reason`/`recommendation`/`data_summary` fields are
formatting of the same data and are omitted). -/
structure ValidatorReport where
  verdict : String
  conflicts : List Conflict
  warnings : List VWarning
  checks_passed : List PassedCheck
deriving Repr, DecidableEq

/-! ### The validator, section by section

Each numbered section of `ConvergenceValidatorTool._run` is a named function
of the data it reads, so the run is their concatenation in source order. -/

/-- Section 1 conflict (convergence_tools.py 121-126). -/
def conflictsGdd : Option String → List Conflict
  | some _ => []
  | none => [{ ctype := "MISSING_FILE", severity := "BLOCKER" }]

/-- Section 1 passed check (convergence_tools.py 120). -/
def passedGdd : Option String → List PassedCheck
  | some _ => [.gddExists]
  | none => []

/-- The `paytable` dict keys after section 2 (empty when the file is missing
or unparseable). -/
def ptSymbols : Option (Except String (List String)) → List String
  | some (.ok l) => l
  | _ => []

/-- Section 2 conflict (convergence_tools.py 141-146). -/
def conflictsPaytable : Option (Except String (List String)) → List Conflict
  | none => [{ ctype := "MISSING_FILE", severity := "BLOCKER" }]
  | some _ => []

/-- Section 2 parse warning (convergence_tools.py 139-140). -/
def warningsPaytable : Option (Except String (List String)) → List VWarning
  | some (.error _) => [{ wtype := "PARSE_ERROR", term := some "paytable.csv" }]
  | _ => []

/-- Section 2 passed check (convergence_tools.py 137-138). -/
def passedPaytable : Option (Except String (List String)) → List PassedCheck
  | some (.ok l) => [.paytableLoaded l.length]
  | _ => []

/-- The `sim` dict after section 3 (empty when missing or unparseable). -/
def simRecOf : Option (Except String Sim) → Sim
  | some (.ok s) => s
  | _ => ⟨false, none, none, []⟩

/-- Section 3 conflict — note severity HIGH, not BLOCKER
(convergence_tools.py 161-166). -/
def conflictsSimFile : Option (Except String Sim) → List Conflict
  | none => [{ ctype := "MISSING_FILE", severity := "HIGH" }]
  | some _ => []

/-- Section 3 parse warning (convergence_tools.py 159-160). -/
def warningsSimFile : Option (Except String Sim) → List VWarning
  | some (.error _) => [{ wtype := "PARSE_ERROR", term := some "simulation_results.json" }]
  | _ => []

/-- Section 3 passed check (convergence_tools.py 158). -/
def passedSimFile : Option (Except String Sim) → List PassedCheck
  | some (.ok _) => [.simulationLoaded]
  | _ => []

/-- Section 4, RTP deviation conflict: only when `measured_rtp is not None`
and the deviation exceeds 1.0 (convergence_tools.py 169-178). -/
def conflictsRtpDev (t : ℚ) : Option ℚ → List Conflict
  | some m => if 1 < |qSub m t| then
      [{ ctype := "RTP_DEVIATION", severity := "BLOCKER",
         instruction_to := some "mathematician" }] else []
  | none => []

/-- Section 4, deviation warning for 0.5 < deviation ≤ 1.0
(convergence_tools.py 179-183). -/
def warningsRtpDev (t : ℚ) : Option ℚ → List VWarning
  | some m => if 1 < |qSub m t| then []
      else if mkRat 1 2 < |qSub m t| then [{ wtype := "RTP_DEVIATION" }] else []
  | none => []

/-- Section 4, passed check for deviation ≤ 0.5 (convergence_tools.py 184-185). -/
def passedRtpDev (t : ℚ) : Option ℚ → List PassedCheck
  | some m => if 1 < |qSub m t| then []
      else if mkRat 1 2 < |qSub m t| then [] else [.rtpOnTarget]
  | none => []

/-- Section 5, design-target overage: `max_win_achieved > max_win_target *
1.2` (convergence_tools.py 189-197). -/
def conflictsMaxWinTarget (mwt : ℚ) : Option ℚ → List Conflict
  | some mw => if qMul mwt (mkRat 6 5) < mw then
      [{ ctype := "MAX_WIN_EXCEEDED", severity := "HIGH",
         instruction_to := some "mathematician" }] else []
  | none => []

/-- Section 5, the jurisdiction loop, run only when a max win was measured
(convergence_tools.py 189, 199-210). -/
def jurPair (markets : List String) : Option ℚ → List Conflict × List PassedCheck
  | some mw => jurisdictionChecks mw markets
  | none => ([], [])

/-- Section 6 conflict: breakdown non-empty, measured RTP truthy, and the
component sum more than 1.0 from the measured RTP (convergence_tools.py
213-222). -/
def conflictsBreakdown (mrtp : Option ℚ) (bd : List (String × Option ℚ)) :
    List Conflict :=
  if bd.isEmpty then [] else
    match mrtp with
    | some m => if m = 0 then []
        else if 1 < |qSub (breakdownTotal bd) m| then
          [{ ctype := "RTP_BREAKDOWN_MISMATCH", severity := "HIGH",
             instruction_to := some "mathematician" }]
        else []
    | none => []

/-- Section 6 passed check (convergence_tools.py 223-224). -/
def passedBreakdown (mrtp : Option ℚ) (bd : List (String × Option ℚ)) :
    List PassedCheck :=
  if bd.isEmpty then [] else
    match mrtp with
    | some m => if m = 0 then []
        else if 1 < |qSub (breakdownTotal bd) m| then []
        else [.rtpBreakdownConsistent]
    | none => []

/-- Truthiness of the parsed `sim` dict for the section 7 guard. -/
def simTruthyOf : Option (Except String Sim) → Bool
  | some (.ok s) => s.nonempty
  | _ => false

/-- Section 7 (convergence_tools.py 227-249). -/
def warningsFeatures (gddText : String) (truthy : Bool)
    (bd : List (String × Option ℚ)) : List VWarning :=
  if pyTruthyStr gddText && truthy then featureWarnings gddText bd else []

/-- Section 8 (convergence_tools.py 252-263). -/
def warningsSymbolCount (pt : List String) (gddText : String) : List VWarning :=
  if !pt.isEmpty && pyTruthyStr gddText then
    (if pt.length < 8 then [{ wtype := "LOW_SYMBOL_COUNT" }] else [])
  else []

/-- Section 9 conflict: BaseReels.csv missing while a paytable was loaded —
severity HIGH (convergence_tools.py 275-281). -/
def conflictsReels (pt : List String) : Option (Option Int) → List Conflict
  | some _ => []
  | none => if !pt.isEmpty then
      [{ ctype := "MISSING_FILE", severity := "HIGH",
         instruction_to := some "mathematician" }] else []

/-- Section 9 passed check (convergence_tools.py 267-272; a read failure
falls into the bare `except: pass`). -/
def passedReels : Option (Option Int) → List PassedCheck
  | some (some n) => [.baseReelsLoaded n]
  | _ => []

/-- Section 10, the verdict (convergence_tools.py 283-298). -/
def verdictOf (conflicts : List Conflict) (warnings : List VWarning) : String :=
  if 0 < conflicts.countP (fun c => c.severity == "BLOCKER") then "NOT_CONVERGED"
  else if 0 < conflicts.countP (fun c => c.severity == "HIGH") then "NOT_CONVERGED"
  else if 3 < warnings.length then "MARGINAL"
  else "CONVERGED"

/-- `ConvergenceValidatorTool._run` (convergence_tools.py 106-312): the
sections above concatenated in source order. -/
def validateConvergence (env : ValidatorEnv) (target_rtp : ℚ)
    (max_win_target : ℚ) (target_markets : List String) : ValidatorReport :=
  let gddText := match env.gdd with | some t => t | none => ""
  let pt := ptSymbols env.paytable
  let simRec := simRecOf env.sim
  let conflicts :=
    conflictsGdd env.gdd ++ conflictsPaytable env.paytable ++
    conflictsSimFile env.sim ++ conflictsRtpDev target_rtp simRec.measured_rtp ++
    conflictsMaxWinTarget max_win_target simRec.max_win_achieved ++
    (jurPair target_markets simRec.max_win_achieved).1 ++
    conflictsBreakdown simRec.measured_rtp simRec.rtp_breakdown ++
    conflictsReels pt env.reels
  let warnings :=
    warningsPaytable env.paytable ++ warningsSimFile env.sim ++
    warningsRtpDev target_rtp simRec.measured_rtp ++
    warningsFeatures gddText (simTruthyOf env.sim) simRec.rtp_breakdown ++
    warningsSymbolCount pt gddText
  let checks :=
    passedGdd env.gdd ++ passedPaytable env.paytable ++
    passedSimFile env.sim ++ passedRtpDev target_rtp simRec.measured_rtp ++
    (jurPair target_markets simRec.max_win_achieved).2 ++
    passedBreakdown simRec.measured_rtp simRec.rtp_breakdown ++
    passedReels env.reels
  ⟨verdictOf conflicts warnings, conflicts, warnings, checks⟩

/-! ### Membership characterizations of the validator sections -/

lemma mem_conflictsGdd {c : Conflict} {g : Option String} :
    c ∈ conflictsGdd g ↔
      g = none ∧ c = { ctype := "MISSING_FILE", severity := "BLOCKER" } := by
  cases g <;> simp [conflictsGdd]

lemma mem_conflictsPaytable {c : Conflict} {p : Option (Except String (List String))} :
    c ∈ conflictsPaytable p ↔
      p = none ∧ c = { ctype := "MISSING_FILE", severity := "BLOCKER" } := by
  cases p <;> simp [conflictsPaytable]

lemma mem_conflictsSimFile {c : Conflict} {sv : Option (Except String Sim)} :
    c ∈ conflictsSimFile sv ↔
      sv = none ∧ c = { ctype := "MISSING_FILE", severity := "HIGH" } := by
  cases sv <;> simp [conflictsSimFile]

lemma mem_conflictsRtpDev {c : Conflict} {t : ℚ} {mo : Option ℚ} :
    c ∈ conflictsRtpDev t mo ↔
      ∃ m, mo = some m ∧ 1 < |qSub m t| ∧
        c = { ctype := "RTP_DEVIATION", severity := "BLOCKER",
              instruction_to := some "mathematician" } := by
  cases mo with
  | none => simp [conflictsRtpDev]
  | some m =>
    simp only [conflictsRtpDev]
    split_ifs with h <;> simp [h]

lemma mem_conflictsMaxWinTarget {c : Conflict} {mwt : ℚ} {mo : Option ℚ} :
    c ∈ conflictsMaxWinTarget mwt mo ↔
      ∃ mw, mo = some mw ∧ qMul mwt (mkRat 6 5) < mw ∧
        c = { ctype := "MAX_WIN_EXCEEDED", severity := "HIGH",
              instruction_to := some "mathematician" } := by
  cases mo with
  | none => simp [conflictsMaxWinTarget]
  | some mw =>
    simp only [conflictsMaxWinTarget]
    split_ifs with h <;> simp [h]

lemma mem_jurPair_fst {c : Conflict} {markets : List String} {mo : Option ℚ} :
    c ∈ (jurPair markets mo).1 ↔
      ∃ mw, mo = some mw ∧ c ∈ (jurisdictionChecks mw markets).1 := by
  cases mo <;> simp [jurPair]

lemma mem_jurPair_snd {pc : PassedCheck} {markets : List String} {mo : Option ℚ} :
    pc ∈ (jurPair markets mo).2 ↔
      ∃ mw, mo = some mw ∧ pc ∈ (jurisdictionChecks mw markets).2 := by
  cases mo <;> simp [jurPair]

lemma mem_conflictsBreakdown {c : Conflict} {mo : Option ℚ}
    {bd : List (String × Option ℚ)} :
    c ∈ conflictsBreakdown mo bd ↔
      bd ≠ [] ∧ ∃ m, mo = some m ∧ m ≠ 0 ∧ 1 < |qSub (breakdownTotal bd) m| ∧
        c = { ctype := "RTP_BREAKDOWN_MISMATCH", severity := "HIGH",
              instruction_to := some "mathematician" } := by
  unfold conflictsBreakdown
  by_cases hbd : bd = []
  · simp [hbd]
  · have hE : bd.isEmpty = false := by
      cases bd
      · exact absurd rfl hbd
      · rfl
    rw [hE]
    simp only [Bool.false_eq_true, if_false]
    cases mo with
    | none => simp [hbd]
    | some m =>
      dsimp only
      split_ifs with h1 h2 <;> simp_all

lemma mem_passedBreakdown {pc : PassedCheck} {mo : Option ℚ}
    {bd : List (String × Option ℚ)} :
    pc ∈ passedBreakdown mo bd ↔
      bd ≠ [] ∧ ∃ m, mo = some m ∧ m ≠ 0 ∧ ¬ 1 < |qSub (breakdownTotal bd) m| ∧
        pc = PassedCheck.rtpBreakdownConsistent := by
  unfold passedBreakdown
  by_cases hbd : bd = []
  · simp [hbd]
  · have hE : bd.isEmpty = false := by
      cases bd
      · exact absurd rfl hbd
      · rfl
    rw [hE]
    simp only [Bool.false_eq_true, if_false]
    cases mo with
    | none => simp [hbd]
    | some m =>
      dsimp only
      split_ifs with h1 h2 <;> simp_all

lemma mem_conflictsReels {c : Conflict} {pt : List String} {r : Option (Option Int)} :
    c ∈ conflictsReels pt r ↔
      r = none ∧ pt ≠ [] ∧
        c = { ctype := "MISSING_FILE", severity := "HIGH",
              instruction_to := some "mathematician" } := by
  cases r with
  | some r => simp [conflictsReels]
  | none =>
    simp only [conflictsReels]
    split_ifs with h <;> simp_all [List.isEmpty_iff]

lemma mem_passedGdd {pc : PassedCheck} {g : Option String} :
    pc ∈ passedGdd g ↔ (∃ t, g = some t) ∧ pc = PassedCheck.gddExists := by
  cases g <;> simp [passedGdd]

lemma mem_passedPaytable {pc : PassedCheck} {p : Option (Except String (List String))} :
    pc ∈ passedPaytable p ↔
      ∃ l, p = some (.ok l) ∧ pc = PassedCheck.paytableLoaded l.length := by
  rcases p with _ | (e | l) <;> simp [passedPaytable]

lemma mem_passedSimFile {pc : PassedCheck} {sv : Option (Except String Sim)} :
    pc ∈ passedSimFile sv ↔
      (∃ s, sv = some (.ok s)) ∧ pc = PassedCheck.simulationLoaded := by
  rcases sv with _ | (e | s) <;> simp [passedSimFile]

lemma mem_passedRtpDev {pc : PassedCheck} {t : ℚ} {mo : Option ℚ} :
    pc ∈ passedRtpDev t mo ↔
      ∃ m, mo = some m ∧ |qSub m t| ≤ mkRat 1 2 ∧ pc = PassedCheck.rtpOnTarget := by
  cases mo with
  | none => simp [passedRtpDev]
  | some m =>
    have hhalf : (mkRat 1 2 : ℚ) < 1 := by
      rw [Rat.mkRat_eq_div]
      norm_num
    simp only [passedRtpDev]
    split_ifs with h1 h2
    · simp only [List.not_mem_nil, false_iff]
      rintro ⟨m2, hm2, hle, -⟩
      cases hm2
      exact absurd h1 (not_lt.2 (hle.trans hhalf.le))
    · simp only [List.not_mem_nil, false_iff]
      rintro ⟨m2, hm2, hle, -⟩
      cases hm2
      exact absurd h2 (not_lt.2 hle)
    · simp only [List.mem_singleton]
      constructor
      · intro h
        exact ⟨m, rfl, not_lt.1 h2, h⟩
      · rintro ⟨m2, hm2, -, h⟩
        exact h

lemma mem_passedReels {pc : PassedCheck} {r : Option (Option Int)} :
    pc ∈ passedReels r ↔
      ∃ n, r = some (some n) ∧ pc = PassedCheck.baseReelsLoaded n := by
  rcases r with _ | (_ | n) <;> simp [passedReels]

/-- NOT_CONVERGED follows from any conflict of severity BLOCKER or HIGH. -/
lemma verdictOf_not_converged {c : Conflict} {conflicts : List Conflict}
    {warnings : List VWarning} (hc : c ∈ conflicts)
    (hs : c.severity = "BLOCKER" ∨ c.severity = "HIGH") :
    verdictOf conflicts warnings = "NOT_CONVERGED" := by
  unfold verdictOf
  rcases Nat.eq_zero_or_pos
      (conflicts.countP (fun c => c.severity == "BLOCKER")) with h | h
  · rcases hs with hs | hs
    · exfalso
      have : 0 < conflicts.countP (fun c => c.severity == "BLOCKER") :=
        List.countP_pos.2 ⟨c, hc, by simp [hs]⟩
      omega
    · have : 0 < conflicts.countP (fun c => c.severity == "HIGH") :=
        List.countP_pos.2 ⟨c, hc, by simp [hs]⟩
      simp [h, this]
  · simp [h]

/-- The conflicts of a validator run, as the concatenation of its sections. -/
lemma validateConvergence_conflicts (env : ValidatorEnv) (t mwt : ℚ)
    (markets : List String) :
    (validateConvergence env t mwt markets).conflicts =
      conflictsGdd env.gdd ++ conflictsPaytable env.paytable ++
      conflictsSimFile env.sim ++
      conflictsRtpDev t (simRecOf env.sim).measured_rtp ++
      conflictsMaxWinTarget mwt (simRecOf env.sim).max_win_achieved ++
      (jurPair markets (simRecOf env.sim).max_win_achieved).1 ++
      conflictsBreakdown (simRecOf env.sim).measured_rtp
        (simRecOf env.sim).rtp_breakdown ++
      conflictsReels (ptSymbols env.paytable) env.reels := rfl

/-- The passed checks of a validator run, as the concatenation of its
sections. -/
lemma validateConvergence_checks (env : ValidatorEnv) (t mwt : ℚ)
    (markets : List String) :
    (validateConvergence env t mwt markets).checks_passed =
      passedGdd env.gdd ++ passedPaytable env.paytable ++
      passedSimFile env.sim ++ passedRtpDev t (simRecOf env.sim).measured_rtp ++
      (jurPair markets (simRecOf env.sim).max_win_achieved).2 ++
      passedBreakdown (simRecOf env.sim).measured_rtp
        (simRecOf env.sim).rtp_breakdown ++
      passedReels env.reels := rfl

/-- The verdict of a validator run. -/
lemma validateConvergence_verdict (env : ValidatorEnv) (t mwt : ℚ)
    (markets : List String) :
    (validateConvergence env t mwt markets).verdict =
      verdictOf (validateConvergence env t mwt markets).conflicts
        (validateConvergence env t mwt markets).warnings := rfl

/-! ### Jurisdiction-loop and breakdown helper lemmas -/

lemma foldl_qAdd_eq (l : List ℚ) : ∀ a, l.foldl qAdd a = a + l.sum := by
  induction l with
  | nil => intro a; simp
  | cons x t ih => intro a; simp [qAdd_eq, ih, add_assoc]

lemma breakdownTotal_eq (bd : List (String × Option ℚ)) :
    breakdownTotal bd = (bd.filterMap Prod.snd).sum := by
  unfold breakdownTotal
  rw [foldl_qAdd_eq]
  simp

lemma marketCapCheck_fst_iff {mw : ℚ} {m : String} {c : Conflict} :
    c ∈ (marketCapCheck mw m).1 ↔
      (c = { ctype := "JURISDICTION_MAX_WIN", severity := "BLOCKER",
             instruction_to := some "mathematician", market := some m } ∧
       ∃ cap, capsLookup (pyStrip (pyLower m)) = some (some cap) ∧
         cap ≠ 0 ∧ cap < mw) := by
  unfold marketCapCheck
  cases h : capsLookup (pyStrip (pyLower m)) with
  | none => simp [h]
  | some cap =>
    cases cap with
    | none => simp [h]
    | some v => dsimp only; split_ifs with h0 hlt <;> simp_all

lemma marketCapCheck_snd_iff {mw : ℚ} {m : String} {pc : PassedCheck} :
    pc ∈ (marketCapCheck mw m).2 ↔
      (pc = PassedCheck.maxWinWithinCap m ∧
       ∃ cap, capsLookup (pyStrip (pyLower m)) = some (some cap) ∧
         cap ≠ 0 ∧ ¬ cap < mw) := by
  unfold marketCapCheck
  cases h : capsLookup (pyStrip (pyLower m)) with
  | none => simp [h]
  | some cap =>
    cases cap with
    | none => simp [h]
    | some v => dsimp only; split_ifs with h0 hlt <;> simp_all

lemma mem_jurisdictionChecks_fst {mw : ℚ} {c : Conflict} :
    ∀ markets, c ∈ (jurisdictionChecks mw markets).1 ↔
      ∃ m ∈ markets, c ∈ (marketCapCheck mw m).1 := by
  intro markets
  induction markets with
  | nil => simp [jurisdictionChecks]
  | cons m rest ih =>
    simp only [jurisdictionChecks, List.mem_append, ih, List.mem_cons]
    constructor
    · rintro (h | ⟨m2, hm2, hc⟩)
      · exact ⟨m, Or.inl rfl, h⟩
      · exact ⟨m2, Or.inr hm2, hc⟩
    · rintro ⟨m2, hm2 | hm2, hc⟩
      · subst hm2; exact Or.inl hc
      · exact Or.inr ⟨m2, hm2, hc⟩

lemma mem_jurisdictionChecks_snd {mw : ℚ} {pc : PassedCheck} :
    ∀ markets, pc ∈ (jurisdictionChecks mw markets).2 ↔
      ∃ m ∈ markets, pc ∈ (marketCapCheck mw m).2 := by
  intro markets
  induction markets with
  | nil => simp [jurisdictionChecks]
  | cons m rest ih =>
    simp only [jurisdictionChecks, List.mem_append, ih, List.mem_cons]
    constructor
    · rintro (h | ⟨m2, hm2, hc⟩)
      · exact ⟨m, Or.inl rfl, h⟩
      · exact ⟨m2, Or.inr hm2, hc⟩
    · rintro ⟨m2, hm2 | hm2, hc⟩
      · subst hm2; exact Or.inl hc
      · exact Or.inr ⟨m2, hm2, hc⟩

lemma jurisdictionChecks_fst_ctype {mw : ℚ} {markets : List String} {c : Conflict}
    (h : c ∈ (jurisdictionChecks mw markets).1) :
    c.ctype = "JURISDICTION_MAX_WIN" := by
  rcases (mem_jurisdictionChecks_fst markets).1 h with ⟨m, _, hc⟩
  rw [(marketCapCheck_fst_iff.1 hc).1]

lemma caps_values_nonzero {k : String} {cap : ℚ}
    (h : capsLookup k = some (some cap)) : cap ≠ 0 := by
  unfold capsLookup at h
  cases hf : MAX_WIN_CAPS.find? (fun kv => kv.1 == k) with
  | none => rw [hf] at h; cases h
  | some kv =>
    rw [hf] at h
    have hmem := List.mem_of_find?_eq_some hf
    have hv : kv.2 = some cap := by simpa using h
    have hval : cap = 10000 ∨ cap = 50000 := by
      fin_cases hmem <;> simp_all
    rcases hval with h2 | h2 <;> rw [h2] <;> decide

lemma caps_cond_drop_nonzero {k : String} (P : ℚ → Prop) :
    (∃ cap, capsLookup k = some (some cap) ∧ P cap) ↔
    (∃ cap, capsLookup k = some (some cap) ∧ cap ≠ 0 ∧ P cap) := by
  constructor
  · rintro ⟨cap, hc, hp⟩
    exact ⟨cap, hc, caps_values_nonzero hc, hp⟩
  · rintro ⟨cap, hc, -, hp⟩
    exact ⟨cap, hc, hp⟩

lemma jurisdiction_conflict_mem_iff {mw : ℚ} {markets : List String} {m : String} :
    ({ ctype := "JURISDICTION_MAX_WIN", severity := "BLOCKER",
       instruction_to := some "mathematician", market := some m } : Conflict) ∈
      (jurisdictionChecks mw markets).1 ↔
    m ∈ markets ∧ ∃ cap, capsLookup (pyStrip (pyLower m)) = some (some cap) ∧
      cap ≠ 0 ∧ cap < mw := by
  rw [mem_jurisdictionChecks_fst]
  constructor
  · rintro ⟨m2, hm2, hc⟩
    rcases marketCapCheck_fst_iff.1 hc with ⟨heq, hcap⟩
    have hmm : m = m2 := by
      simpa [Conflict.mk.injEq] using heq
    subst hmm
    exact ⟨hm2, hcap⟩
  · rintro ⟨hm, cap, hcap, h0, hlt⟩
    exact ⟨m, hm, marketCapCheck_fst_iff.2 ⟨rfl, cap, hcap, h0, hlt⟩⟩

lemma jurisdiction_passed_mem_iff {mw : ℚ} {markets : List String} {m : String} :
    PassedCheck.maxWinWithinCap m ∈ (jurisdictionChecks mw markets).2 ↔
    m ∈ markets ∧ ∃ cap, capsLookup (pyStrip (pyLower m)) = some (some cap) ∧
      cap ≠ 0 ∧ ¬ cap < mw := by
  rw [mem_jurisdictionChecks_snd]
  constructor
  · rintro ⟨m2, hm2, hc⟩
    rcases marketCapCheck_snd_iff.1 hc with ⟨heq, hcap⟩
    have hmm : m = m2 := by
      simpa using heq
    subst hmm
    exact ⟨hm2, hcap⟩
  · rintro ⟨hm, cap, hcap, h0, hge⟩
    exact ⟨m, hm, marketCapCheck_snd_iff.2 ⟨rfl, cap, hcap, h0, hge⟩⟩


/-- Environment of the C4 counterexample: GDD and paytable present and
parseable, reel strips present, `simulation_results.json` absent. -/
def c4Env : ValidatorEnv :=
  { gdd := some "# GDD\n## 1. Overview\ntext",
    paytable := some (.ok ["Ace", "King", "Wild", "Scatter"]),
    sim := none,
    reels := some (some 48) }

/-- C4 counterexample: when the simulation-results artifact is absent, the
recorded missing-file conflict has severity HIGH, not BLOCKER as the claim
states (convergence_tools.py 162-166); the verdict is still NOT_CONVERGED. -/
theorem C4_counterexample :
    (validateConvergence c4Env 96 5000 ["UK"]).conflicts =
      [{ ctype := "MISSING_FILE", severity := "HIGH" }] ∧
    (∀ c ∈ (validateConvergence c4Env 96 5000 ["UK"]).conflicts,
      c.severity ≠ "BLOCKER") ∧
    (validateConvergence c4Env 96 5000 ["UK"]).verdict = "NOT_CONVERGED" := by
  decide

/-- C4 amended: when the simulation-results artifact is absent, the validator
records a missing-file conflict of severity HIGH (not BLOCKER), short-circuits
every check that depends on it (every conflict that can appear is a
MISSING_FILE conflict — no RTP, max-win, jurisdiction or breakdown conflict is
produced), and the verdict is NOT_CONVERGED; likewise, when the reel-strip
file is additionally absent and a paytable was loaded, a HIGH-severity
missing-file conflict attributed to the mathematician is recorded. -/
theorem C4_missing_sim_short_circuit (env : ValidatorEnv) (t mwt : ℚ)
    (markets : List String) (hsim : env.sim = none) :
    ({ ctype := "MISSING_FILE", severity := "HIGH" } : Conflict) ∈
      (validateConvergence env t mwt markets).conflicts ∧
    (∀ c ∈ (validateConvergence env t mwt markets).conflicts,
      c.ctype = "MISSING_FILE") ∧
    (validateConvergence env t mwt markets).verdict = "NOT_CONVERGED" ∧
    (env.reels = none → ∀ l, env.paytable = some (.ok l) → l ≠ [] →
      ({ ctype := "MISSING_FILE", severity := "HIGH",
         instruction_to := some "mathematician" } : Conflict) ∈
        (validateConvergence env t mwt markets).conflicts) := by
  have hmem : ({ ctype := "MISSING_FILE", severity := "HIGH" } : Conflict) ∈
      (validateConvergence env t mwt markets).conflicts := by
    rw [validateConvergence_conflicts]
    simp only [List.mem_append]
    exact Or.inl (Or.inl (Or.inl (Or.inl (Or.inl
      (Or.inr (mem_conflictsSimFile.2 ⟨hsim, rfl⟩))))))
  refine ⟨hmem, ?_, ?_, ?_⟩
  · intro c hc
    rw [validateConvergence_conflicts] at hc
    simp only [List.mem_append, hsim, simRecOf] at hc
    rcases hc with (((((((h | h) | h) | h) | h) | h) | h) | h)
    · exact (mem_conflictsGdd.1 h).2 ▸ rfl
    · exact (mem_conflictsPaytable.1 h).2 ▸ rfl
    · exact (mem_conflictsSimFile.1 h).2 ▸ rfl
    · rcases mem_conflictsRtpDev.1 h with ⟨m, hm, -, -⟩; cases hm
    · rcases mem_conflictsMaxWinTarget.1 h with ⟨mw, hm, -, -⟩; cases hm
    · rcases mem_jurPair_fst.1 h with ⟨mw, hm, -⟩; cases hm
    · rcases (mem_conflictsBreakdown.1 h).2 with ⟨m, hm, -⟩; cases hm
    · exact (mem_conflictsReels.1 h).2.2 ▸ rfl
  · rw [validateConvergence_verdict]
    exact verdictOf_not_converged hmem (Or.inr rfl)
  · intro hr l hp hl
    rw [validateConvergence_conflicts]
    simp only [List.mem_append]
    exact Or.inr (mem_conflictsReels.2 ⟨hr, by simp [hp, ptSymbols, hl], rfl⟩)

/-- Witness for the amended C4: GDD and paytable parse, reel strips absent,
simulation absent. -/
theorem C4_missing_sim_short_circuit_witness :
    (({ ctype := "MISSING_FILE", severity := "HIGH" } : Conflict) ∈
      (validateConvergence
        ⟨some "gdd", some (.ok ["Ace"]), none, none⟩ 96 5000 []).conflicts) ∧
    (validateConvergence
        ⟨some "gdd", some (.ok ["Ace"]), none, none⟩ 96 5000 []).verdict =
      "NOT_CONVERGED" ∧
    ({ ctype := "MISSING_FILE", severity := "HIGH",
       instruction_to := some "mathematician" } : Conflict) ∈
      (validateConvergence
        ⟨some "gdd", some (.ok ["Ace"]), none, none⟩ 96 5000 []).conflicts := by
  have h := C4_missing_sim_short_circuit
    ⟨some "gdd", some (.ok ["Ace"]), none, none⟩ 96 5000 [] rfl
  exact ⟨h.1, h.2.2.1, h.2.2.2 rfl ["Ace"] rfl (by decide)⟩

/-- Environment of the C5 counterexample: simulation parsed with
`measured_rtp = 0` and a one-component breakdown summing to 50. -/
def c5Env : ValidatorEnv :=
  { gdd := some "doc",
    paytable := some (.ok ["A", "B", "C", "D", "E", "F", "G", "H"]),
    sim := some (.ok { nonempty := true, measured_rtp := some 0,
                       max_win_achieved := none,
                       rtp_breakdown := [("base_game", some 50)] }),
    reels := some (some 30) }

/-- C5 counterexample: a simulation record with measured RTP present but equal
to 0 and a non-empty breakdown summing to 50 (gap 50 > 1.0) produces neither
an RTP_BREAKDOWN_MISMATCH conflict nor a passed reconciliation check: Python's
`if measured_rtp and ...` treats a zero measured RTP as absent
(convergence_tools.py 216, 223). -/
theorem C5_counterexample :
    (1 : ℚ) < |(50 : ℚ) - 0| ∧
    c5Env.sim = some (.ok { nonempty := true, measured_rtp := some 0,
                            max_win_achieved := none,
                            rtp_breakdown := [("base_game", some 50)] }) ∧
    (∀ c ∈ (validateConvergence c5Env 96 5000 []).conflicts,
      c.ctype ≠ "RTP_BREAKDOWN_MISMATCH") ∧
    PassedCheck.rtpBreakdownConsistent ∉
      (validateConvergence c5Env 96 5000 []).checks_passed :=
  ⟨by norm_num, by decide, by decide, by decide⟩

/-- C5 amended: for every simulation record with a present, *nonzero* measured
RTP and a non-empty RTP breakdown, the validator reports an
RTP_BREAKDOWN_MISMATCH conflict of severity HIGH attributed to the
mathematician exactly when the sum of the numeric breakdown components
differs from the measured RTP by more than 1.0 percentage point, and records
the reconciliation as a passed check exactly otherwise. -/
theorem C5_breakdown_mismatch_iff (env : ValidatorEnv) (t mwt : ℚ)
    (markets : List String) (s : Sim) (m : ℚ)
    (hsim : env.sim = some (.ok s)) (hm : s.measured_rtp = some m)
    (hm0 : m ≠ 0) (hbd : s.rtp_breakdown ≠ []) :
    (({ ctype := "RTP_BREAKDOWN_MISMATCH", severity := "HIGH",
        instruction_to := some "mathematician" } : Conflict) ∈
        (validateConvergence env t mwt markets).conflicts ↔
      1 < |(s.rtp_breakdown.filterMap Prod.snd).sum - m|) ∧
    (PassedCheck.rtpBreakdownConsistent ∈
        (validateConvergence env t mwt markets).checks_passed ↔
      ¬ 1 < |(s.rtp_breakdown.filterMap Prod.snd).sum - m|) := by
  have hq : qSub (breakdownTotal s.rtp_breakdown) m =
      (s.rtp_breakdown.filterMap Prod.snd).sum - m := by
    rw [qSub_eq, breakdownTotal_eq]
  constructor
  · rw [validateConvergence_conflicts]
    simp only [List.mem_append, hsim, simRecOf]
    constructor
    · rintro (((((((h | h) | h) | h) | h) | h) | h) | h)
      · rcases mem_conflictsGdd.1 h with ⟨-, h⟩; exact absurd h (by decide)
      · rcases mem_conflictsPaytable.1 h with ⟨-, h⟩; exact absurd h (by decide)
      · rcases mem_conflictsSimFile.1 h with ⟨-, h⟩; exact absurd h (by decide)
      · rcases mem_conflictsRtpDev.1 h with ⟨-, -, -, h⟩; exact absurd h (by decide)
      · rcases mem_conflictsMaxWinTarget.1 h with ⟨-, -, -, h⟩; exact absurd h (by decide)
      · rcases mem_jurPair_fst.1 h with ⟨mw, -, h⟩
        have := jurisdictionChecks_fst_ctype h
        simp at this
      · rcases (mem_conflictsBreakdown.1 h).2 with ⟨m', hm', -, hgap, -⟩
        rw [hm] at hm'
        obtain rfl := Option.some.inj hm'
        rwa [hq] at hgap
      · rcases mem_conflictsReels.1 h with ⟨-, -, h⟩; exact absurd h (by decide)
    · intro hgap
      refine Or.inl (Or.inr (mem_conflictsBreakdown.2
        ⟨hbd, m, hm, hm0, ?_, rfl⟩))
      rwa [hq]
  · rw [validateConvergence_checks]
    simp only [List.mem_append, hsim, simRecOf]
    constructor
    · rintro ((((((h | h) | h) | h) | h) | h) | h)
      · rcases mem_passedGdd.1 h with ⟨-, h⟩; cases h
      · rcases mem_passedPaytable.1 h with ⟨l2, -, h⟩; cases h
      · rcases mem_passedSimFile.1 h with ⟨-, h⟩; cases h
      · rcases mem_passedRtpDev.1 h with ⟨-, -, -, h⟩; cases h
      · rcases mem_jurPair_snd.1 h with ⟨mw, -, h⟩
        rcases (mem_jurisdictionChecks_snd markets).1 h with ⟨m', -, hmm⟩
        have := (marketCapCheck_snd_iff.1 hmm).1
        simp at this
      · rcases (mem_passedBreakdown.1 h).2 with ⟨m', hm', -, hgap, -⟩
        rw [hm] at hm'
        obtain rfl := Option.some.inj hm'
        rwa [hq] at hgap
      · rcases mem_passedReels.1 h with ⟨n2, -, h⟩; cases h
    · intro hgap
      refine Or.inl (Or.inr (mem_passedBreakdown.2 ⟨hbd, m, hm, hm0, ?_, rfl⟩))
      rwa [hq]

/-- Witness for the amended C5 on the spec's concrete scenario: breakdown
`{base_game: 60, free_spins: 20, jackpots: 0.5}` with measured RTP 96
(sum 80.5, gap 15.5 > 1.0) yields the HIGH mismatch conflict. -/
theorem C5_breakdown_mismatch_iff_witness :
    ({ ctype := "RTP_BREAKDOWN_MISMATCH", severity := "HIGH",
       instruction_to := some "mathematician" } : Conflict) ∈
      (validateConvergence
        ⟨some "doc", some (.ok ["A"]),
         some (.ok { nonempty := true, measured_rtp := some 96,
                     max_win_achieved := none,
                     rtp_breakdown := [("base_game", some 60),
                       ("free_spins", some 20), ("jackpots", some (mkRat 1 2))] }),
         some (some 30)⟩ 96 5000 []).conflicts :=
  ((C5_breakdown_mismatch_iff
      ⟨some "doc", some (.ok ["A"]),
       some (.ok { nonempty := true, measured_rtp := some 96,
                   max_win_achieved := none,
                   rtp_breakdown := [("base_game", some 60),
                     ("free_spins", some 20), ("jackpots", some (mkRat 1 2))] }),
       some (some 30)⟩ 96 5000 []
      { nonempty := true, measured_rtp := some 96, max_win_achieved := none,
        rtp_breakdown := [("base_game", some 60), ("free_spins", some 20),
          ("jackpots", some (mkRat 1 2))] } 96
      rfl rfl (by decide) (by decide)).1).mpr
    (by rw [← breakdownTotal_eq, ← qSub_eq]; decide)

/-- C9: the validator's jurisdiction max-win check consults only its own
`MAX_WIN_CAPS` table: a JURISDICTION_MAX_WIN blocker naming market `m` is
produced exactly when `m`'s lowercased trimmed name maps to a non-null cap
that the measured max win exceeds; a passed check is recorded exactly when it
maps to a non-null cap that is not exceeded (markets absent from the table or
mapping to a null cap yield neither); and the table's UK entry (10000x)
contradicts the Jurisdiction Profile Store, whose UK profile has a null
max-win cap. -/
theorem C9_jurisdiction_caps_table (env : ValidatorEnv) (t mwt : ℚ)
    (markets : List String) (s : Sim) (mw : ℚ)
    (hsim : env.sim = some (.ok s)) (hmw : s.max_win_achieved = some mw) :
    (∀ m : String,
      (({ ctype := "JURISDICTION_MAX_WIN", severity := "BLOCKER",
          instruction_to := some "mathematician", market := some m } : Conflict) ∈
          (validateConvergence env t mwt markets).conflicts ↔
        m ∈ markets ∧ ∃ cap, capsLookup (pyStrip (pyLower m)) = some (some cap) ∧
          cap < mw)) ∧
    (∀ m : String,
      (PassedCheck.maxWinWithinCap m ∈
          (validateConvergence env t mwt markets).checks_passed ↔
        m ∈ markets ∧ ∃ cap, capsLookup (pyStrip (pyLower m)) = some (some cap) ∧
          ¬ cap < mw)) ∧
    capsLookup "uk" = some (some 10000) ∧
    (resolveProfile "UK").map (fun kp => kp.2.capX) = some none := by
  refine ⟨?_, ?_, by decide, by decide⟩
  · intro m
    rw [and_congr_right fun _ => caps_cond_drop_nonzero (fun cap => cap < mw),
      ← @jurisdiction_conflict_mem_iff mw markets m,
      validateConvergence_conflicts]
    simp only [List.mem_append, hsim, simRecOf, hmw]
    constructor
    · rintro (((((((h | h) | h) | h) | h) | h) | h) | h)
      · rcases mem_conflictsGdd.1 h with ⟨-, h⟩; simp at h
      · rcases mem_conflictsPaytable.1 h with ⟨-, h⟩; simp at h
      · rcases mem_conflictsSimFile.1 h with ⟨-, h⟩; simp at h
      · rcases mem_conflictsRtpDev.1 h with ⟨-, -, -, h⟩; simp at h
      · rcases mem_conflictsMaxWinTarget.1 h with ⟨-, -, -, h⟩; simp at h
      · rcases mem_jurPair_fst.1 h with ⟨mw2, hmw2, h⟩
        obtain rfl := Option.some.inj hmw2
        exact h
      · rcases (mem_conflictsBreakdown.1 h).2 with ⟨-, -, -, -, h⟩; simp at h
      · rcases mem_conflictsReels.1 h with ⟨-, -, h⟩; simp at h
    · intro h
      exact Or.inl (Or.inl (Or.inr (mem_jurPair_fst.2 ⟨mw, rfl, h⟩)))
  · intro m
    rw [and_congr_right fun _ => caps_cond_drop_nonzero (fun cap => ¬ cap < mw),
      ← @jurisdiction_passed_mem_iff mw markets m,
      validateConvergence_checks]
    simp only [List.mem_append, hsim, simRecOf, hmw]
    constructor
    · rintro ((((((h | h) | h) | h) | h) | h) | h)
      · rcases mem_passedGdd.1 h with ⟨-, h⟩; cases h
      · rcases mem_passedPaytable.1 h with ⟨l2, -, h⟩; cases h
      · rcases mem_passedSimFile.1 h with ⟨-, h⟩; cases h
      · rcases mem_passedRtpDev.1 h with ⟨-, -, -, h⟩; cases h
      · rcases mem_jurPair_snd.1 h with ⟨mw2, hmw2, h⟩
        obtain rfl := Option.some.inj hmw2
        exact h
      · rcases (mem_passedBreakdown.1 h).2 with ⟨-, -, -, -, h⟩; simp at h
      · rcases mem_passedReels.1 h with ⟨n2, -, h⟩; cases h
    · intro h
      exact Or.inl (Or.inl (Or.inr (mem_jurPair_snd.2 ⟨mw, rfl, h⟩)))

/-- Witness for C9: max win 12000x against markets `["UK", "Curacao",
"Atlantis"]` — UK (cap 10000) yields the blocker; Curacao (null cap) yields
neither a blocker nor a passed check. -/
theorem C9_jurisdiction_caps_table_witness :
    (({ ctype := "JURISDICTION_MAX_WIN", severity := "BLOCKER",
        instruction_to := some "mathematician", market := some "UK" } : Conflict) ∈
      (validateConvergence
        ⟨some "doc", some (.ok ["A"]),
         some (.ok { nonempty := true, measured_rtp := none,
                     max_win_achieved := some 12000, rtp_breakdown := [] }),
         some (some 30)⟩ 96 5000 ["UK", "Curacao", "Atlantis"]).conflicts) ∧
    PassedCheck.maxWinWithinCap "Curacao" ∉
      (validateConvergence
        ⟨some "doc", some (.ok ["A"]),
         some (.ok { nonempty := true, measured_rtp := none,
                     max_win_achieved := some 12000, rtp_breakdown := [] }),
         some (some 30)⟩ 96 5000 ["UK", "Curacao", "Atlantis"]).checks_passed := by
  have h := C9_jurisdiction_caps_table
    ⟨some "doc", some (.ok ["A"]),
     some (.ok { nonempty := true, measured_rtp := none,
                 max_win_achieved := some 12000, rtp_breakdown := [] }),
     some (some 30)⟩ 96 5000 ["UK", "Curacao", "Atlantis"]
    { nonempty := true, measured_rtp := none, max_win_achieved := some 12000,
      rtp_breakdown := [] } 12000 rfl rfl
  refine ⟨(h.1 "UK").mpr ⟨by decide, 10000, by decide, by decide⟩, fun hc => ?_⟩
  rcases (h.2.1 "Curacao").mp hc with ⟨-, cap, hcap, -⟩
  have hcur : capsLookup (pyStrip (pyLower "Curacao")) = some none := by decide
  rw [hcur] at hcap
  simp at hcap

/-- C10: when the parsed simulation's measured RTP is absent or exactly 0, the
validator silently skips the RTP-breakdown reconciliation (no
RTP_BREAKDOWN_MISMATCH conflict and no passed reconciliation check, whatever
the breakdown sums to), while the target-RTP deviation check still runs for a
measured RTP of exactly 0 (it is guarded by `is not None`, not truthiness). -/
theorem C10_zero_measured_skips_breakdown (env : ValidatorEnv) (t mwt : ℚ)
    (markets : List String) (s : Sim)
    (hsim : env.sim = some (.ok s))
    (hm : s.measured_rtp = none ∨ s.measured_rtp = some 0) :
    (∀ c ∈ (validateConvergence env t mwt markets).conflicts,
      c.ctype ≠ "RTP_BREAKDOWN_MISMATCH") ∧
    PassedCheck.rtpBreakdownConsistent ∉
      (validateConvergence env t mwt markets).checks_passed ∧
    (s.measured_rtp = some 0 →
      (({ ctype := "RTP_DEVIATION", severity := "BLOCKER",
          instruction_to := some "mathematician" } : Conflict) ∈
          (validateConvergence env t mwt markets).conflicts ↔
        1 < |(0 : ℚ) - t|)) := by
  have hskip : ∀ m', s.measured_rtp = some m' → m' = 0 := by
    intro m' hm'
    rcases hm with h | h <;> rw [h] at hm'
    · cases hm'
    · exact (Option.some.inj hm').symm
  refine ⟨?_, ?_, ?_⟩
  · intro c hc
    rw [validateConvergence_conflicts] at hc
    simp only [List.mem_append, hsim, simRecOf] at hc
    rcases hc with (((((((h | h) | h) | h) | h) | h) | h) | h)
    · exact (mem_conflictsGdd.1 h).2 ▸ (by decide)
    · exact (mem_conflictsPaytable.1 h).2 ▸ (by decide)
    · exact (mem_conflictsSimFile.1 h).2 ▸ (by decide)
    · rcases mem_conflictsRtpDev.1 h with ⟨-, -, -, h⟩; exact h ▸ (by decide)
    · rcases mem_conflictsMaxWinTarget.1 h with ⟨-, -, -, h⟩; exact h ▸ (by decide)
    · rcases mem_jurPair_fst.1 h with ⟨mw, -, h⟩
      have := jurisdictionChecks_fst_ctype h
      rw [this]
      decide
    · rcases (mem_conflictsBreakdown.1 h).2 with ⟨m', hm', hne, -⟩
      exact absurd (hskip m' hm') hne
    · rcases mem_conflictsReels.1 h with ⟨-, -, h⟩; exact h ▸ (by decide)
  · intro hc
    rw [validateConvergence_checks] at hc
    simp only [List.mem_append, hsim, simRecOf] at hc
    rcases hc with ((((((h | h) | h) | h) | h) | h) | h)
    · rcases mem_passedGdd.1 h with ⟨-, h⟩; cases h
    · rcases mem_passedPaytable.1 h with ⟨l2, -, h⟩; cases h
    · rcases mem_passedSimFile.1 h with ⟨-, h⟩; cases h
    · rcases mem_passedRtpDev.1 h with ⟨-, -, -, h⟩; cases h
    · rcases mem_jurPair_snd.1 h with ⟨mw, -, h⟩
      rcases (mem_jurisdictionChecks_snd markets).1 h with ⟨m', -, hmm⟩
      have := (marketCapCheck_snd_iff.1 hmm).1
      simp at this
    · rcases (mem_passedBreakdown.1 h).2 with ⟨m', hm', hne, -⟩
      exact absurd (hskip m' hm') hne
    · rcases mem_passedReels.1 h with ⟨n2, -, h⟩; cases h
  · intro hm0
    have hq0 : qSub 0 t = (0 : ℚ) - t := qSub_eq 0 t
    rw [validateConvergence_conflicts]
    simp only [List.mem_append, hsim, simRecOf, hm0]
    constructor
    · rintro (((((((h | h) | h) | h) | h) | h) | h) | h)
      · rcases mem_conflictsGdd.1 h with ⟨-, h⟩; exact absurd h (by decide)
      · rcases mem_conflictsPaytable.1 h with ⟨-, h⟩; exact absurd h (by decide)
      · rcases mem_conflictsSimFile.1 h with ⟨-, h⟩; exact absurd h (by decide)
      · rcases mem_conflictsRtpDev.1 h with ⟨m2, hm2, hgap, -⟩
        obtain rfl := Option.some.inj hm2
        rwa [hq0] at hgap
      · rcases mem_conflictsMaxWinTarget.1 h with ⟨-, -, -, h⟩; exact absurd h (by decide)
      · rcases mem_jurPair_fst.1 h with ⟨mw, -, h⟩
        have := jurisdictionChecks_fst_ctype h
        simp at this
      · rcases (mem_conflictsBreakdown.1 h).2 with ⟨-, -, -, -, h⟩; exact absurd h (by decide)
      · rcases mem_conflictsReels.1 h with ⟨-, -, h⟩; exact absurd h (by decide)
    · intro hgap
      refine Or.inl (Or.inl (Or.inl (Or.inl (Or.inr
        (mem_conflictsRtpDev.2 ⟨0, rfl, ?_, rfl⟩)))))
      rwa [hq0]

/-- Witness for C10: measured RTP exactly 0 with a huge breakdown sum — no
mismatch conflict and no passed reconciliation check. -/
theorem C10_zero_measured_skips_breakdown_witness :
    (∀ c ∈ (validateConvergence
        ⟨some "doc", some (.ok ["A"]),
         some (.ok { nonempty := true, measured_rtp := some 0,
                     max_win_achieved := none,
                     rtp_breakdown := [("base_game", some 50)] }),
         some (some 30)⟩ 96 5000 []).conflicts,
      c.ctype ≠ "RTP_BREAKDOWN_MISMATCH") ∧
    PassedCheck.rtpBreakdownConsistent ∉
      (validateConvergence
        ⟨some "doc", some (.ok ["A"]),
         some (.ok { nonempty := true, measured_rtp := some 0,
                     max_win_achieved := none,
                     rtp_breakdown := [("base_game", some 50)] }),
         some (some 30)⟩ 96 5000 []).checks_passed :=
  ⟨(C10_zero_measured_skips_breakdown _ 96 5000 []
      { nonempty := true, measured_rtp := some 0, max_win_achieved := none,
        rtp_breakdown := [("base_game", some 50)] } rfl (Or.inr rfl)).1,
   (C10_zero_measured_skips_breakdown _ 96 5000 []
      { nonempty := true, measured_rtp := some 0, max_win_achieved := none,
        rtp_breakdown := [("base_game", some 50)] } rfl (Or.inr rfl)).2.1⟩

/-- Environment for the C3 amended witness: iterations 1 and 2 blocked, the
final iteration reports `converged = true` with a residual warning (as the
last-loop prompt instructs). -/
def c3WEnv : Nat → ConvResult := fun n =>
  if n < 3 then ⟨false, [⟨"mathematician", "rtp off target", "fix reels"⟩], [], "blocked"⟩
  else ⟨true, [], ["residual cosmetic warning"], "converged with warnings"⟩

/-- Witness for the amended C3 at `N = 3`: the loop exits after exactly 3
iterations with `converged = true` and the warning recorded, because the final
iteration's result says so. -/
theorem C3_last_loop_records_final_result_witness :
    (runConvergenceLoop c3WEnv 3).history =
      (List.range' 1 3).map (fun i => histOf i (c3WEnv i)) ∧
    (runConvergenceLoop c3WEnv 3).loopsRun = 3 ∧
    (runConvergenceLoop c3WEnv 3).converged = (c3WEnv 3).converged ∧
    lastLoopForceInstruction 3 3 = true :=
  C3_last_loop_records_final_result 3 c3WEnv (by decide)
    (fun i h1 h2 => by
      have : i = 1 ∨ i = 2 := by omega
      rcases this with h | h <;> simp [h, c3WEnv])

end Arkainbrain

namespace Arkainbrain

/-! ## GDD patch tool

Model of `GDDPatchTool._run` (`src/tools/convergence_tools.py` 345-399).
The document and the side revision log are character lists; the regex
`rf'({re.escape(header.strip())}\s*\n)(.*?)(?=\n## |\Z)'` with `re.DOTALL`
is modelled by its exact matching semantics: the leftmost position where the
stripped header text occurs followed by a whitespace run containing a newline;
group 1 ends after the *last* newline of that whitespace run (greedy `\s*`
with backtracking); the lazy body extends to the first following `"\n## "`
or to end of document. -/

/-- Python `\s` on the characters the source handles (`str` mode). -/
def pyIsSpace (c : Char) : Bool :=
  c == ' ' || c == '\t' || c == '\n' || c == '\r' || c == '\x0b' || c == '\x0c'

/-- Index of the last `'\n'` inside the maximal whitespace prefix of `s`
(the greedy `\s*\n` backtracking target), accumulator form. -/
def lastNlAux : List Char → Nat → Option Nat → Option Nat
  | [], _, acc => acc
  | c :: t, i, acc =>
    if pyIsSpace c then lastNlAux t (i + 1) (if c = '\n' then some i else acc)
    else acc

def lastNlInWsRun (s : List Char) : Option Nat := lastNlAux s 0 none

/-- Match of `{header}\s*\n` at the start of `s`: returns the offset just
after the chosen newline (= start of the body group) when it matches. -/
def matchAt (h s : List Char) : Option Nat :=
  if isPrefixCB h s then
    match lastNlInWsRun (s.drop h.length) with
    | some j => some (h.length + j + 1)
    | none => none
  else none

/-- Leftmost match: returns `(match start, body start)` in absolute
positions, scanning from position `i`. -/
def findFrom (h : List Char) : List Char → Nat → Option (Nat × Nat)
  | [], i =>
    match matchAt h [] with
    | some bo => some (i, i + bo)
    | none => none
  | c :: t, i =>
    match matchAt h (c :: t) with
    | some bo => some (i, i + bo)
    | none => findFrom h t (i + 1)

/-- The lookahead token `"\n## "` that terminates a section body. -/
def nextSectionDelim : List Char := ['\n', '#', '#', ' ']

/-- Length of the lazy body group starting at the given suffix: the distance
to the first position where `"\n## "` follows (or to the end of document). -/
def findBodyEnd : List Char → Nat
  | [] => 0
  | c :: t => if isPrefixCB nextSectionDelim (c :: t) then 0 else findBodyEnd t + 1

/-- Split on `'\n'` (Python line structure for `re.MULTILINE` `^`). -/
def splitLinesAux : List Char → List Char → List (List Char)
  | [], acc => [acc.reverse]
  | c :: t, acc =>
    if c = '\n' then acc.reverse :: splitLinesAux t []
    else splitLinesAux t (c :: acc)

def splitLines (s : List Char) : List (List Char) := splitLinesAux s []

/-- A line matched by `re.findall(r'^## .+', content, re.MULTILINE)`:
it starts with `"## "` and has at least one further character. -/
def headerLineB (l : List Char) : Bool :=
  isPrefixCB ("## ".data) l && decide (4 ≤ l.length)

/-- `available_sections` of the not-found result (convergence_tools.py 362):
every `"## "`-prefixed (non-empty-titled) line of the document. -/
def availableSections (content : List Char) : List String :=
  (splitLines content).filterMap
    (fun l => if headerLineB l then some (String.mk l) else none)

/-- Python `f"{delta:+d}"`. -/
def fmtDelta (z : Int) : String :=
  if 0 ≤ z then "+" ++ toString z else toString z

/-- The revision-log entry appended on success (convergence_tools.py
379-384).  It carries the section header, the reason, the old/new lengths
and the delta — and nothing else (in particular no timestamp). -/
def logEntry (section_header reason : String) (oldLen newLen : Nat) : String :=
  "\n---\n### Revision: " ++ section_header ++
  "\n**Reason:** " ++ reason ++
  "\n**Old length:** " ++ toString oldLen ++ " chars → **New length:** " ++
  toString newLen ++ " chars\n**Delta:** " ++
  fmtDelta ((newLen : Int) - (oldLen : Int)) ++ " chars\n"

/-- Result of one `GDDPatchTool._run` call. -/
inductive PatchResult where
  | fileNotFound
  | sectionNotFound (available : List String)
  | success (section_updated reason : String)
      (old_chars new_chars total_gdd_chars : Nat)
deriving Repr, DecidableEq

/-- The files the patch tool touches: the GDD document (if present) and the
side revision log `gdd_revision_log.md` (opened in append mode). -/
structure GddFs where
  doc : Option (List Char)
  log : List Char
deriving Repr, DecidableEq

/-- `GDDPatchTool._run` (convergence_tools.py 345-399). -/
def gddPatch (fs : GddFs) (section_header new_content reason : String) :
    PatchResult × GddFs :=
  match fs.doc with
  | none => (.fileNotFound, fs)
  | some content =>
    let h := (pyStrip section_header).data
    match findFrom h content 0 with
    | none => (.sectionNotFound (availableSections content), fs)
    | some (_, bodyStart) =>
      let bodyLen := findBodyEnd (content.drop bodyStart)
      let bodyEnd := bodyStart + bodyLen
      let oldLen := ((content.drop bodyStart).take bodyLen).length
      let newSec := '\n' :: (pyStrip new_content).data ++ ['\n', '\n']
      let newDoc := content.take bodyStart ++ newSec ++ content.drop bodyEnd
      (.success section_header reason oldLen new_content.length newDoc.length,
       { doc := some newDoc,
         log := fs.log ++
           (logEntry section_header reason oldLen new_content.length).data })

/-! ### Patch lemmas -/

lemma isPrefixCB_length {h s : List Char} (hp : isPrefixCB h s = true) :
    h.length ≤ s.length := by
  induction h generalizing s with
  | nil => simp
  | cons a h ih =>
    cases s with
    | nil => simp [isPrefixCB] at hp
    | cons b t =>
      simp only [isPrefixCB, Bool.and_eq_true] at hp
      simpa using ih hp.2

lemma lastNlAux_lt {j : Nat} :
    ∀ (s : List Char) (i : Nat) (acc : Option Nat),
      (∀ j0, acc = some j0 → j0 < i) →
      lastNlAux s i acc = some j → j < i + s.length := by
  intro s
  induction s with
  | nil =>
    intro i acc hacc heq
    have := hacc j heq
    simpa using this
  | cons c t ih =>
    intro i acc hacc heq
    simp only [lastNlAux] at heq
    split at heq
    · have := ih (i + 1) _ ?_ heq
      · simpa [Nat.add_comm, Nat.add_left_comm] using this
      · intro j0 hj0
        split at hj0
        · cases hj0; omega
        · have := hacc j0 hj0; omega
    · have := hacc j heq
      simp only [List.length_cons]
      omega

lemma lastNlInWsRun_lt {s : List Char} {j : Nat}
    (h : lastNlInWsRun s = some j) : j < s.length := by
  have := lastNlAux_lt s 0 none (by intro j0 hj0; cases hj0) h
  simpa using this

lemma matchAt_spec {h s : List Char} {bo : Nat} (hm : matchAt h s = some bo) :
    isPrefixCB h s = true ∧ h.length < bo ∧ bo ≤ s.length := by
  unfold matchAt at hm
  split at hm
  · next hp =>
    split at hm
    · next j hj =>
      cases hm
      have hjlt : j < (s.drop h.length).length := lastNlInWsRun_lt hj
      have hhs : h.length ≤ s.length := isPrefixCB_length hp
      simp only [List.length_drop] at hjlt
      exact ⟨hp, by omega, by omega⟩
    · cases hm
  · cases hm

lemma findFrom_spec {h : List Char} :
    ∀ (s : List Char) (i p b : Nat), findFrom h s i = some (p, b) →
      i ≤ p ∧ matchAt h (s.drop (p - i)) = some (b - p) ∧ p - i ≤ s.length := by
  intro s
  induction s with
  | nil =>
    intro i p b heq
    simp only [findFrom] at heq
    split at heq
    · next bo hbo =>
      cases heq
      refine ⟨le_rfl, ?_, by simp⟩
      simpa [hbo]
    · cases heq
  | cons c t ih =>
    intro i p b heq
    simp only [findFrom] at heq
    split at heq
    · next bo hbo =>
      cases heq
      refine ⟨le_rfl, ?_, by simp⟩
      simpa [hbo]
    · have ⟨h1, h2, h3⟩ := ih (i + 1) p b heq
      refine ⟨by omega, ?_, ?_⟩
      · have hd : (c :: t).drop (p - i) = t.drop (p - (i + 1)) := by
          have : p - i = (p - (i + 1)) + 1 := by omega
          rw [this]
          rfl
        rwa [hd]
      · simp only [List.length_cons]
        omega

lemma findBodyEnd_le : ∀ s : List Char, findBodyEnd s ≤ s.length := by
  intro s
  induction s with
  | nil => simp [findBodyEnd]
  | cons c t ih =>
    simp only [findBodyEnd]
    split
    · simp
    · simpa using Nat.add_le_add_right ih 1

/-- Bounds extracted from a successful find on the whole document. -/
lemma findFrom_bounds {h content : List Char} {p b : Nat}
    (hfind : findFrom h content 0 = some (p, b)) :
    isPrefixCB h (content.drop p) = true ∧ p + h.length < b ∧
      b ≤ content.length := by
  have ⟨h1, h2, h3⟩ := findFrom_spec content 0 p b hfind
  simp only [Nat.sub_zero] at h2 h3
  have ⟨hp, hlt, hle⟩ := matchAt_spec h2
  refine ⟨hp, by omega, ?_⟩
  simp only [List.length_drop] at hle
  omega

/-- The C6 counterexample document: the text `"## X"` occurs mid-line (so no
`"## "`-prefixed header line exists at all), yet it is followed by a newline,
so the patch regex matches it. -/
def c6Doc : List Char := "intro ## X\nbody\n".data

/-- C6 counterexample: on a document none of whose sections has the requested
header (indeed `availableSections` is empty — there is no section), the patch
call does NOT return a section-not-found result: the unanchored regex matches
the mid-line occurrence of `"## X"`, the document is modified, and a revision
log entry is appended. -/
theorem C6_counterexample :
    availableSections c6Doc = [] ∧
    (gddPatch ⟨some c6Doc, []⟩ "## X" "NEW" "r").1 =
      PatchResult.success "## X" "r" 5 3 17 ∧
    (gddPatch ⟨some c6Doc, []⟩ "## X" "NEW" "r").2.doc =
      some ("intro ## X\n\nNEW\n\n".data) ∧
    (gddPatch ⟨some c6Doc, []⟩ "## X" "NEW" "r").2.doc ≠ some c6Doc ∧
    (gddPatch ⟨some c6Doc, []⟩ "## X" "NEW" "r").2.log ≠ [] := by
  decide

/-- C6 amended: whenever the stripped header text followed by (whitespace and)
a newline occurs nowhere in the document — in particular whenever the regex
search fails — the patch returns a section-not-found result carrying the
complete list of `"## "`-prefixed header lines of the document, and leaves
both the document and the revision log untouched. -/
theorem C6_section_not_found (fs : GddFs) (content : List Char)
    (header nc reason : String)
    (hdoc : fs.doc = some content)
    (hmiss : findFrom (pyStrip header).data content 0 = none) :
    gddPatch fs header nc reason =
      (PatchResult.sectionNotFound (availableSections content), fs) ∧
    availableSections content =
      (splitLines content).filterMap
        (fun l => if headerLineB l then some (String.mk l) else none) := by
  constructor
  · simp only [gddPatch, hdoc, hmiss]
  · rfl

/-- Witness for the amended C6: the spec's concrete scenario — header
`"## 99. Nonexistent"` against a two-section document returns the two
actually-present headers and changes nothing. -/
theorem C6_section_not_found_witness :
    gddPatch ⟨some ("## 1. Overview\ntext\n## 2. Market\nbody\n".data), "log".data⟩
        "## 99. Nonexistent" "x" "r" =
      (PatchResult.sectionNotFound ["## 1. Overview", "## 2. Market"],
       ⟨some ("## 1. Overview\ntext\n## 2. Market\nbody\n".data), "log".data⟩) :=
  ((C6_section_not_found _ ("## 1. Overview\ntext\n## 2. Market\nbody\n".data)
      "## 99. Nonexistent" "x" "r" rfl (by decide)).1).trans (by decide)

/-- C7 counterexample: the revision-log entry appended by a successful patch
is a pure function of the header, reason and lengths — here it is exactly the
string below, which carries no timestamp of any kind (`GDDPatchTool._run`
never consults a clock; convergence_tools.py 379-384). -/
theorem C7_counterexample :
    (gddPatch ⟨some ("## 1. A\nold\n".data), "L".data⟩ "## 1. A" "new" "fix").2.log =
      ("L" ++ "\n---\n### Revision: ## 1. A\n**Reason:** fix\n**Old length:** 4 chars → **New length:** 3 chars\n**Delta:** -1 chars\n").data ∧
    (gddPatch ⟨some ("## 1. A\nold\n".data), "L".data⟩ "## 1. A" "new" "fix").1 =
      PatchResult.success "## 1. A" "fix" 4 3 14 := by
  decide

/-- C7 amended: a successful patch replaces exactly the matched section's
body span `[b, e)`: the new document is `take b ++ newBody ++ drop e`, so
every byte before the body start (the matched header line included — the
header occupies `[p, p + |header|) ⊆ [0, b)`) and every byte from the old
body's end on is preserved, and the appended revision-log entry is the
length-delta-annotated (but not timestamped) `logEntry`. -/
theorem C7_patch_locality (fs : GddFs) (content : List Char)
    (header nc reason : String) (p b : Nat)
    (hdoc : fs.doc = some content)
    (hfind : findFrom (pyStrip header).data content 0 = some (p, b)) :
    gddPatch fs header nc reason =
      (PatchResult.success header reason (findBodyEnd (content.drop b)) nc.length
         (content.take b ++ ('\n' :: (pyStrip nc).data ++ ['\n', '\n']) ++
          content.drop (b + findBodyEnd (content.drop b))).length,
       { doc := some (content.take b ++ ('\n' :: (pyStrip nc).data ++ ['\n', '\n']) ++
            content.drop (b + findBodyEnd (content.drop b))),
         log := fs.log ++ (logEntry header reason (findBodyEnd (content.drop b))
            nc.length).data }) ∧
    (content.take b ++ ('\n' :: (pyStrip nc).data ++ ['\n', '\n']) ++
       content.drop (b + findBodyEnd (content.drop b))).take b = content.take b ∧
    (content.take b ++ ('\n' :: (pyStrip nc).data ++ ['\n', '\n']) ++
       content.drop (b + findBodyEnd (content.drop b))).drop
        (b + ('\n' :: (pyStrip nc).data ++ ['\n', '\n']).length) =
      content.drop (b + findBodyEnd (content.drop b)) ∧
    isPrefixCB (pyStrip header).data (content.drop p) = true ∧
    p + (pyStrip header).data.length < b ∧
    b + findBodyEnd (content.drop b) ≤ content.length := by
  obtain ⟨hpref, hplt, hble⟩ := findFrom_bounds hfind
  have hfbe : findBodyEnd (content.drop b) ≤ content.length - b := by
    have := findBodyEnd_le (content.drop b)
    simpa using this
  have htakelen : (content.take b).length = b := by
    rw [List.length_take]
    omega
  refine ⟨?_, ?_, ?_, hpref, hplt, by omega⟩
  · simp only [gddPatch, hdoc, hfind]
    have holdLen :
        ((content.drop b).take (findBodyEnd (content.drop b))).length =
          findBodyEnd (content.drop b) := by
      rw [List.length_take]
      exact Nat.min_eq_left (findBodyEnd_le _)
    rw [holdLen]
  · rw [List.append_assoc, List.take_left' htakelen]
  · have hlen : (content.take b ++ ('\n' :: (pyStrip nc).data ++ ['\n', '\n'])).length =
        b + ('\n' :: (pyStrip nc).data ++ ['\n', '\n']).length := by
      rw [List.length_append, htakelen]
    rw [List.drop_left' hlen]

/-- Witness for the amended C7: patching section `"## 1. A"` of a
two-section document replaces only its body; the second section and the
header line survive byte-identically, and the log entry is appended. -/
theorem C7_patch_locality_witness :
    gddPatch ⟨some ("## 1. A\nold\n## 2. B\nkeep\n".data), "L".data⟩
        "## 1. A" "new" "fix" =
      (PatchResult.success "## 1. A" "fix" 3 3 28,
       { doc := some (("## 1. A\nold\n## 2. B\nkeep\n".data).take 8 ++
            ('\n' :: (pyStrip "new").data ++ ['\n', '\n']) ++
            ("## 1. A\nold\n## 2. B\nkeep\n".data).drop
              (8 + findBodyEnd (("## 1. A\nold\n## 2. B\nkeep\n".data).drop 8))),
         log := ("L".data) ++ (logEntry "## 1. A" "fix" 3 3).data }) :=
  (C7_patch_locality ⟨some ("## 1. A\nold\n## 2. B\nkeep\n".data), "L".data⟩
      ("## 1. A\nold\n## 2. B\nkeep\n".data) "## 1. A" "new" "fix" 0 8
      rfl (by decide)).1.trans (by decide)

end Arkainbrain

namespace Arkainbrain

/-! ## Paytable sanity checker

Model of `PaytableSanityCheckerTool._run` (`src/tools/convergence_tools.py`
721-947).  CSV reading is abstracted at the `csv.DictReader` / `csv.reader`
level: the paytable is its fieldnames plus rows of fieldname-keyed cells
(each cell carrying its raw string and its `float(...)` value when the
conversion succeeds), and the reel file is its rows of raw cell strings. -/

/-- One CSV cell: the raw string and `float(raw)` when parseable. -/
structure Cell where
  raw : String
  num : Option ℚ
deriving Repr, DecidableEq

/-- Parsed `paytable.csv`: `reader.fieldnames` and the `DictReader` rows. -/
structure PaytableCsv where
  fieldnames : List String
  rows : List (List (String × Cell))
deriving Repr, DecidableEq

/-- The two CSV artifacts of the checker. -/
structure SanityEnv where
  paytable : Option (Except String PaytableCsv)
  reels : Option (Except String (List (List String)))
deriving Repr, DecidableEq

/-- An issue entry: its `type` and the symbol/reel name in its detail text. -/
structure SanityIssue where
  itype : String
  about : Option String := none
deriving Repr, DecidableEq

/-- A warning entry. -/
structure SanityWarning where
  wtype : String
  about : Option String := none
deriving Repr, DecidableEq

/-- An entry of the checker's `checks_passed`. -/
inductive SanityPassed where
  | paytableLoaded (symbols : Nat)
  | monotonic
  | wildPresent
  | scatterPresent
  | baseReels (positions reels : Nat)
  | allReelSymbolsInPaytable
  | highestPay (q : ℚ)
deriving Repr, DecidableEq

/-- The checker's report (`verdict`, `issues`, `warnings`, `checks_passed`;
the count/summary fields are formatting of the same data). -/
structure SanityReport where
  verdict : String
  issues : List SanityIssue
  warnings : List SanityWarning
  checks_passed : List SanityPassed
deriving Repr, DecidableEq

/-- `fl in ("symbol", "name", "sym")` (convergence_tools.py 761). -/
def isSymFieldname (fn : String) : Bool :=
  (["symbol", "name", "sym"] : List String).contains (pyStrip (pyLower fn))

/-- `sym_col`: the last fieldname whose lowercased stripped form names the
symbol column, else the first fieldname (convergence_tools.py 757-768). -/
def symColOf (fieldnames : List String) : Option String :=
  match (fieldnames.filter isSymFieldname).getLast? with
  | some fn => some fn
  | none => fieldnames.head?

/-- The pay-column heuristic for tier `n` (convergence_tools.py 763-765). -/
def matchesOak (n : Nat) (fn : String) : Bool :=
  let fl := pyStrip (pyLower fn)
  strContains fl (toString n ++ "oak") || strContains fl (toString n ++ "x") ||
  strContains fl (toString n ++ " of") || strContains fl ("x" ++ toString n) ||
  fl == toString n

/-- `pay_cols[f"{n}OAK"]`: the last matching fieldname wins (dict assignment
in a loop). -/
def payColOf (fieldnames : List String) (n : Nat) : Option String :=
  (fieldnames.filter (matchesOak n)).getLast?

/-- `sorted(pay_cols.keys())` — `"3OAK" < "4OAK" < "5OAK" < "6OAK"`. -/
def oakKeys (fieldnames : List String) : List Nat :=
  [3, 4, 5, 6].filter (fun n => (payColOf fieldnames n).isSome)

/-- `row.get(col)` on a `DictReader` row. -/
def rowGet (row : List (String × Cell)) (col : String) : Option Cell :=
  (row.find? (fun kv => kv.1 == col)).map Prod.snd

/-- `float(row.get(col, 0))` with the enclosing `try/except` giving 0. -/
def valOf (row : List (String × Cell)) (fieldnames : List String) (n : Nat) : ℚ :=
  match payColOf fieldnames n with
  | some col =>
    match rowGet row col with
    | some cell => cell.num.getD 0
    | none => 0
  | none => 0

/-- `row.get(sym_col, dflt)` as a raw string. -/
def rawSym (symCol : Option String) (row : List (String × Cell))
    (dflt : String) : String :=
  match symCol with
  | some sc =>
    match rowGet row sc with
    | some cell => cell.raw
    | none => dflt
  | none => dflt

/-- `row.get(sym_col, "???").strip()` (sections 2-3). -/
def symNameOf (symCol : Option String) (row : List (String × Cell)) : String :=
  pyStrip (rawSym symCol row "???")

/-- `row.get(sym_col, "").strip()` (sections 4-5). -/
def symNameOf2 (symCol : Option String) (row : List (String × Cell)) : String :=
  pyStrip (rawSym symCol row "")

/-- Section 2 skip rule: empty name or WILD/SCATTER/BONUS by name. -/
def skipMono (sym : String) : Bool :=
  sym == "" || (["wild", "scatter", "bonus"] : List String).contains (pyLower sym)

/-- Section 2 inner loop over the sorted tier keys, carrying `prev_val`
(initially -1): flag when a positive pay drops below the previous positive
tier (convergence_tools.py 777-791). -/
def monoScan (row : List (String × Cell)) (fieldnames : List String)
    (sym : String) : List Nat → ℚ → List SanityIssue
  | [], _ => []
  | n :: rest, prev =>
    let v := valOf row fieldnames n
    (if 0 < v ∧ v < prev then [{ itype := "NON_MONOTONIC", about := some sym }]
     else []) ++
    monoScan row fieldnames sym rest (if 0 < v then v else prev)

def issuesMono (fieldnames : List String) (symCol : Option String)
    (rows : List (List (String × Cell))) : List SanityIssue :=
  rows.bind (fun row =>
    let sym := symNameOf symCol row
    if skipMono sym then [] else monoScan row fieldnames sym (oakKeys fieldnames) (-1))

/-- Section 3: a row paying 0 on every detected tier. -/
def allZero (row : List (String × Cell)) (fieldnames : List String) : Bool :=
  (oakKeys fieldnames).all (fun n => decide (valOf row fieldnames n ≤ 0))

def warningsZeroPay (fieldnames : List String) (symCol : Option String)
    (rows : List (List (String × Cell))) : List SanityWarning :=
  rows.bind (fun row =>
    let sym := symNameOf symCol row
    if allZero row fieldnames &&
        !((["wild", "scatter", "bonus", ""] : List String).contains (pyLower sym)) then
      [{ wtype := "ZERO_PAY", about := some sym }]
    else [])

/-- Section 5 helpers (convergence_tools.py 844-896). -/
def reelSymbolsOf (body : List (List String)) : List String :=
  (body.bind id).filterMap (fun cell =>
    let c := pyStrip cell
    if c ≠ "" ∧ !((["", "position", "pos", "stop"] : List String).contains (pyLower c))
    then some c else none)

def ptSymbolSet (symCol : Option String)
    (rows : List (List (String × Cell))) : List String :=
  (rows.map (fun row => symNameOf2 symCol row)).filter (fun s => s ≠ "")

/-- `reel_col_values` for one reel column (convergence_tools.py 887):
stripped non-empty cells of rows long enough to have that column. -/
def reelColValues (body : List (List String)) (colIdx : Nat) : List String :=
  body.filterMap (fun row =>
    match row.get? colIdx with
    | some cell =>
      let c := pyStrip cell
      if c ≠ "" then some c else none
    | none => none)

/-- Section 5c: reels with fewer than 10 populated positions are flagged
SHORT_REEL — although the emitted message text says "(minimum: ~20-30)" and
the fix says "at least 20 positions" (convergence_tools.py 886-893). -/
def issuesShortReel (header : List String) (body : List (List String)) :
    List SanityIssue :=
  header.enum.bind (fun p =>
    if (reelColValues body p.1).length < 10 then
      [{ itype := "SHORT_REEL", about := some p.2 }]
    else [])

/-- The issue types counted as blockers in the verdict
(convergence_tools.py 922-924). -/
def sanityBlockerTypes : List String :=
  ["REEL_SYMBOL_MISSING_FROM_PAYTABLE", "EMPTY_PAYTABLE", "SHORT_REEL",
   "MISSING_REELS"]

/-- The 4-tier verdict (convergence_tools.py 921-933). -/
def sanityVerdict (issues : List SanityIssue) (warnings : List SanityWarning) :
    String :=
  if 0 < issues.countP (fun i => sanityBlockerTypes.contains i.itype) then "FAIL"
  else if !issues.isEmpty then "NEEDS_FIXES"
  else if 3 < warnings.length then "MARGINAL"
  else "PASS"

/-- `PaytableSanityCheckerTool._run` (convergence_tools.py 721-947). -/
def checkPaytableSanity (env : SanityEnv) : SanityReport :=
  match env.paytable with
  | none =>
    ⟨"FAIL", [{ itype := "MISSING_FILE" }], [], []⟩
  | some (.error _) =>
    ⟨"FAIL", [{ itype := "PARSE_ERROR" }], [], []⟩
  | some (.ok pt) =>
    let rows := pt.rows
    let fns := pt.fieldnames
    let symCol := symColOf fns
    -- 1. empty paytable
    let issues1 : List SanityIssue :=
      if rows.isEmpty then [{ itype := "EMPTY_PAYTABLE" }] else []
    let passed1 : List SanityPassed :=
      if rows.isEmpty then [] else [.paytableLoaded rows.length]
    -- 2. monotonic pays
    let issues2 := issuesMono fns symCol rows
    let passed2 : List SanityPassed :=
      if (issues1 ++ issues2).all (fun i => i.itype ≠ "NON_MONOTONIC") then
        [.monotonic] else []
    -- 3. zero pay
    let warnings3 := warningsZeroPay fns symCol rows
    -- 4. WILD / SCATTER presence
    let symNames := rows.map (fun row => pyLower (symNameOf2 symCol row))
    let hasWild := symNames.any (fun s => strContains s "wild")
    let hasScatter := symNames.any (fun s => strContains s "scatter" || strContains s "bonus")
    let passed4 : List SanityPassed :=
      (if hasWild then [.wildPresent] else []) ++
      (if hasScatter then [.scatterPresent] else [])
    let warnings4 : List SanityWarning :=
      (if hasWild then [] else [{ wtype := "NO_WILD" }]) ++
      (if hasScatter then [] else [{ wtype := "NO_SCATTER" }])
    -- 5. reel strips
    let ptSyms := ptSymbolSet symCol rows
    let reelsOut : List SanityIssue × List SanityWarning × List SanityPassed :=
      match env.reels with
      | none => ([{ itype := "MISSING_REELS" }], [], [])
      | some (.error _) => ([], [{ wtype := "REEL_PARSE_ERROR" }], [])
      | some (.ok rs) =>
        let header := rs.headD []
        let body := rs.tail
        let reelSyms := reelSymbolsOf body
        let onlyInReels := reelSyms.filter (fun s => !ptSyms.contains s)
        let trulyMissingR := onlyInReels.filter
          (fun s => !(ptSyms.map pyLower).contains (pyLower s))
        let issues5a : List SanityIssue :=
          if !onlyInReels.isEmpty && !trulyMissingR.isEmpty then
            [{ itype := "REEL_SYMBOL_MISSING_FROM_PAYTABLE" }] else []
        let onlyInPt := ptSyms.filter (fun s => !reelSyms.contains s)
        let trulyMissingP := onlyInPt.filter
          (fun s => !(reelSyms.map pyLower).contains (pyLower s))
        let warnings5b : List SanityWarning :=
          if !onlyInPt.isEmpty && !trulyMissingP.isEmpty then
            [{ wtype := "PAYTABLE_SYMBOL_NOT_ON_REELS" }] else []
        let issues5c := issuesShortReel header body
        let passed5 : List SanityPassed :=
          [.baseReels body.length header.length] ++
          (if (issues5a).all (fun i => i.itype ≠ "REEL_SYMBOL_MISSING_FROM_PAYTABLE")
           then [.allReelSymbolsInPaytable] else [])
        (issues5a ++ issues5c, warnings5b, passed5)
    -- 6. max theoretical pay
    let maxPay : ℚ := rows.foldl
      (fun acc row => (oakKeys fns).foldl (fun a n => max a (valOf row fns n)) acc) 0
    let passed6 : List SanityPassed :=
      if !(oakKeys fns).isEmpty && !rows.isEmpty && 0 < maxPay then
        [.highestPay maxPay] else []
    let issues := issues1 ++ issues2 ++ reelsOut.1
    let warnings := warnings3 ++ warnings4 ++ reelsOut.2.1
    let checks := passed1 ++ passed2 ++ passed4 ++ reelsOut.2.2 ++ passed6
    ⟨sanityVerdict issues warnings, issues, warnings, checks⟩

/-- The C8 paytable: four symbols with monotone pays, a WILD and a SCATTER. -/
def c8Paytable : PaytableCsv :=
  { fieldnames := ["Symbol", "3OAK", "4OAK", "5OAK"],
    rows := [
      [("Symbol", ⟨"Ace", none⟩), ("3OAK", ⟨"1", some 1⟩),
       ("4OAK", ⟨"2", some 2⟩), ("5OAK", ⟨"5", some 5⟩)],
      [("Symbol", ⟨"King", none⟩), ("3OAK", ⟨"0.5", some (mkRat 1 2)⟩),
       ("4OAK", ⟨"1", some 1⟩), ("5OAK", ⟨"3", some 3⟩)],
      [("Symbol", ⟨"Wild", none⟩), ("3OAK", ⟨"0", some 0⟩),
       ("4OAK", ⟨"0", some 0⟩), ("5OAK", ⟨"10", some 10⟩)],
      [("Symbol", ⟨"Scatter", none⟩), ("3OAK", ⟨"0", some 0⟩),
       ("4OAK", ⟨"0", some 0⟩), ("5OAK", ⟨"0", some 0⟩)]] }

/-- A one-reel `BaseReels.csv` with `n` populated positions. -/
def c8Reels (n : Nat) : List (List String) :=
  ["Reel 1"] :: List.replicate n ["Ace"]

def c8Env (n : Nat) : SanityEnv :=
  { paytable := some (.ok c8Paytable), reels := some (.ok (c8Reels n)) }

/-- C8 (code bug): the under-populated-reel check fires only below 10
positions, although its own message text documents a minimum of 20
(convergence_tools.py 886-893, "minimum: ~20-30" / "at least 20 positions")
and the spec states ≥ 20.  A reel with 15 populated positions — under the
documented minimum — is not flagged and the run ends with verdict PASS,
while a 9-position reel is flagged SHORT_REEL, which is blocker-class and
forces verdict FAIL. -/
theorem C8_short_reel_threshold_bug :
    (reelColValues (c8Reels 15).tail 0).length = 15 ∧
    (reelColValues (c8Reels 15).tail 0).length < 20 ∧
    (∀ i ∈ (checkPaytableSanity (c8Env 15)).issues, i.itype ≠ "SHORT_REEL") ∧
    (checkPaytableSanity (c8Env 15)).verdict = "PASS" ∧
    ({ itype := "SHORT_REEL", about := some "Reel 1" } : SanityIssue) ∈
      (checkPaytableSanity (c8Env 9)).issues ∧
    (checkPaytableSanity (c8Env 9)).verdict = "FAIL" := by
  decide

end Arkainbrain
